import Mathlib

/-!
# Webhook forwarding of message events

A shallow embedding of the two forwarders of
`src/infrastructure/whatsapp` (`twilio_callback.go`, `outbound_callback.go`):
the eligibility gates, the payload builders, the address helpers, the media
classifier and the classification of the HTTP outcome; and of the context
accessors of `src/ui/rest/middleware/basicauth.go`.

Modelling conventions.
* A Go `string` is the list of its runes (`GoString`); strings that hold
  invalid UTF-8 are outside the model. The body of an HTTP response is kept
  as a list of bytes, because the code limits it by a byte count.
* A Go pointer that may be `nil` is an `Option`.
* Package-level state (`config.*`, the client handle `cli`) and the library
  calls whose code is outside the two files (`JID.String`, the text
  extraction helpers, `json.Marshal`, `http.NewRequestWithContext`,
  `http.DefaultClient.Do`, the storage lookup) are fields of `Env`.
* A Go `error` is `Option GoString`: `none` is `nil`, `some m` is an error
  whose message is `m`.
-/

namespace Whatsapp

/-! ## Strings -/

/-- A Go string, as the sequence of its runes. -/
abbrev GoString := List Char

/-- Go `unicode.IsSpace`: the Latin-1 spaces and the `White_Space` property. -/
def isSpace (r : Char) : Bool :=
  let n := r.toNat
  (9 ≤ n && n ≤ 13) || n == 0x20 || n == 0x85 || n == 0xA0 || n == 0x1680 ||
    (0x2000 ≤ n && n ≤ 0x200A) || n == 0x2028 || n == 0x2029 || n == 0x202F ||
    n == 0x205F || n == 0x3000

/-- Go `strings.TrimLeftFunc`. -/
def TrimLeftFunc (s : GoString) (f : Char → Bool) : GoString :=
  s.dropWhile f

/-- Go `strings.TrimRightFunc`. -/
def TrimRightFunc (s : GoString) (f : Char → Bool) : GoString :=
  (s.reverse.dropWhile f).reverse

/-- Go `strings.TrimSpace`: leading and trailing white space removed. -/
def TrimSpace (s : GoString) : GoString :=
  TrimRightFunc (TrimLeftFunc s isSpace) isSpace

/-- Go `strings.HasPrefix`. -/
def HasPrefix (s pre : GoString) : Bool :=
  pre.isPrefixOf s

/-- Go `strings.TrimPrefix`: `s` without the leading `pre`, once, when `s`
starts with it; `s` unchanged otherwise. -/
def TrimPrefix (s pre : GoString) : GoString :=
  if HasPrefix s pre then s.drop pre.length else s

/-- Go `strings.TrimRight`: trailing runes that occur in `cutset` removed. -/
def TrimRight (s cutset : GoString) : GoString :=
  TrimRightFunc s (fun c => cutset.contains c)

/-- Go `strings.Split` for a separator of one rune. -/
def Split (sep : Char) : GoString → List GoString
  | [] => [[]]
  | c :: cs =>
    if c = sep then [] :: Split sep cs
    else
      match Split sep cs with
      | [] => [[c]]
      | h :: t => (c :: h) :: t

/-- Go `strconv.Itoa` and the `%d` verb: the decimal form of an `int`. -/
def Itoa (n : Int) : GoString :=
  match n with
  | Int.ofNat m => (Nat.toDigits 10 m)
  | Int.negSucc m => '-' :: Nat.toDigits 10 (m + 1)

/-! ## Bytes of a response body -/

/-- Whether `b` is a UTF-8 continuation byte. -/
def isCont (b : Nat) : Bool := 0x80 ≤ b && b ≤ 0xBF

/-- The rune at the head of a byte sequence and its width, as Go
`utf8.DecodeRune` gives them: an invalid or short encoding is `U+FFFD` of
width 1. The sequence is not empty. -/
def decodeRune (b0 : Nat) (rest : List Nat) : Char × Nat :=
  let bad : Char × Nat := (Char.ofNat 0xFFFD, 1)
  if b0 < 0x80 then (Char.ofNat b0, 1)
  else if 0xC2 ≤ b0 && b0 ≤ 0xDF then
    match rest with
    | b1 :: _ => if isCont b1 then (Char.ofNat ((b0 - 0xC0) * 64 + (b1 - 0x80)), 2) else bad
    | _ => bad
  else if 0xE0 ≤ b0 && b0 ≤ 0xEF then
    match rest with
    | b1 :: b2 :: _ =>
      let lo := if b0 = 0xE0 then 0xA0 else 0x80
      let hi := if b0 = 0xED then 0x9F else 0xBF
      if lo ≤ b1 && b1 ≤ hi && isCont b2 then
        (Char.ofNat ((b0 - 0xE0) * 4096 + (b1 - 0x80) * 64 + (b2 - 0x80)), 3)
      else bad
    | _ => bad
  else if 0xF0 ≤ b0 && b0 ≤ 0xF4 then
    match rest with
    | b1 :: b2 :: b3 :: _ =>
      let lo := if b0 = 0xF0 then 0x90 else 0x80
      let hi := if b0 = 0xF4 then 0x8F else 0xBF
      if lo ≤ b1 && b1 ≤ hi && isCont b2 && isCont b3 then
        (Char.ofNat ((b0 - 0xF0) * 262144 + (b1 - 0x80) * 4096 + (b2 - 0x80) * 64 + (b3 - 0x80)), 4)
      else bad
    | _ => bad
  else bad

/-- The runes of a byte sequence; `fuel` bounds the number of runes. -/
def decodeRunes : Nat → List Nat → GoString
  | 0, _ => []
  | _, [] => []
  | fuel + 1, b0 :: rest =>
    let d := decodeRune b0 rest
    d.1 :: decodeRunes fuel (rest.drop (d.2 - 1))

/-- Go `string(b)` for a byte slice `b`, read as runes. Every rune takes at
least one byte, so `b.length` runes of fuel always suffice. -/
def bytesToString (b : List Nat) : GoString :=
  decodeRunes b.length b

/-- Go `io.ReadAll(io.LimitReader(r, n))` on a reader that still holds `body`:
at most the first `n` bytes. -/
def readAllLimit (body : List Nat) (n : Nat) : List Nat :=
  body.take n

/-! ## Data model -/

/-- The part of `types.JID` the forwarders read. -/
structure JID where
  User : GoString
  Server : GoString
deriving DecidableEq, Repr

/-- The part of `types.MessageInfo` the forwarders read. -/
structure MessageInfo where
  Chat : JID
  Sender : JID
  IsFromMe : Bool
  IsGroup : Bool
  ID : GoString
  PushName : GoString
deriving DecidableEq, Repr

/-- A `float64`, kept as its IEEE 754 bit pattern; only `%f` reads it. -/
abbrev Float64 := Nat

/-- A media variant of `waE2E.Message` (image, video, document, audio or
sticker); `Mimetype` is the optional protobuf field. -/
structure MediaMessage where
  Mimetype : Option GoString
deriving DecidableEq, Repr

/-- The generated getter `GetMimetype`: the field, or `""` when it is unset. -/
def MediaMessage.GetMimetype (m : MediaMessage) : GoString :=
  m.Mimetype.getD []

/-- The location variant `waE2E.LocationMessage`. -/
structure LocationMessage where
  DegreesLatitude : Option Float64
  DegreesLongitude : Option Float64
  Name : Option GoString
  Address : Option GoString
deriving DecidableEq, Repr

def LocationMessage.GetDegreesLatitude (l : LocationMessage) : Float64 :=
  l.DegreesLatitude.getD 0

def LocationMessage.GetDegreesLongitude (l : LocationMessage) : Float64 :=
  l.DegreesLongitude.getD 0

def LocationMessage.GetName (l : LocationMessage) : GoString :=
  l.Name.getD []

def LocationMessage.GetAddress (l : LocationMessage) : GoString :=
  l.Address.getD []

/-- The variants of `waE2E.Message` the forwarders probe. Each is a pointer
field of the protobuf message; a malformed message may carry several. -/
structure Message where
  ImageMessage : Option MediaMessage
  VideoMessage : Option MediaMessage
  DocumentMessage : Option MediaMessage
  AudioMessage : Option MediaMessage
  StickerMessage : Option MediaMessage
  LocationMessage : Option LocationMessage
  ProtocolMessage : Option Unit
deriving DecidableEq, Repr

/-- The event `events.Message`: its info and its body, which may be `nil`. -/
structure Event where
  Info : MessageInfo
  Message : Option Message
deriving DecidableEq, Repr

/-- The device store of the client: `cli.Store`, whose `ID` may be `nil`. -/
structure Device where
  ID : Option JID
deriving DecidableEq, Repr

/-- The client handle `cli`, whose `Store` may be `nil`. -/
structure Client where
  Store : Option Device
deriving DecidableEq, Repr

/-- A stored chat record; only its name is read. -/
structure Chat where
  Name : GoString
deriving DecidableEq, Repr

/-- The storage collaborator `IChatStorageRepository`, reduced to `GetChat`:
the record (possibly `nil`) and the error (possibly `nil`) it returns. -/
structure ChatStorageRepo where
  GetChat : GoString → Option Chat × Option GoString

/-- An HTTP request as the forwarders build it. -/
structure HttpRequest where
  Method : GoString
  URL : GoString
  ContentType : GoString
  Body : List Nat
  TimeoutSeconds : Nat
deriving DecidableEq, Repr

/-- An HTTP response: the status code and the bytes its body delivers. -/
structure HttpResponse where
  StatusCode : Int
  Body : List Nat
deriving DecidableEq, Repr

/-- The payload `TwilioMessage` (Schema B). -/
structure TwilioMessage where
  WaID : GoString
  ProfileName : GoString
  SmsMessageSID : GoString
  NumMedia : GoString
  SmsSID : GoString
  SmsStatus : GoString
  Body : GoString
  To : GoString
  NumSegments : GoString
  MessageSID : GoString
  AccountSID : GoString
  From : GoString
  GroupName : GoString
  FromGroup : Bool
  Latitude : GoString
  Longitude : GoString
  Address : GoString
  MediaContentType : GoString
deriving DecidableEq, Repr

/-- The payload `outboundDevicePayload` (Schema A). -/
structure outboundDevicePayload where
  Did : GoString
  Number : GoString
  Name : GoString
  Text : GoString
  CompanyNID : Int
deriving DecidableEq, Repr

/-- What lies outside the two source files: the configuration, the client
handle and the library calls. -/
structure Env where
  /-- The value `config.WhatsappAPIEndpoint`. -/
  WhatsappAPIEndpoint : GoString
  /-- The value `config.CompanyNID`. -/
  CompanyNID : Int
  /-- The value `config.TwilioAccountSID`. -/
  TwilioAccountSID : GoString
  /-- The package-level client handle `cli`. -/
  cli : Option Client
  /-- The method `JID.String`. -/
  jidString : JID → GoString
  /-- The helper `utils.ExtractMessageTextFromEvent`. -/
  ExtractMessageTextFromEvent : Event → GoString
  /-- The helper `utils.ExtractMessageTextFromProto`. -/
  ExtractMessageTextFromProto : Option Message → GoString
  /-- The call `fmt.Sprintf("%f", x)`. -/
  sprintfFloat : Float64 → GoString
  /-- The call `json.Marshal` on a Schema B payload: the bytes, or an error. -/
  marshalTwilio : TwilioMessage → Except GoString (List Nat)
  /-- The call `json.Marshal` on a Schema A payload: the bytes, or an error. -/
  marshalOutbound : outboundDevicePayload → Except GoString (List Nat)
  /-- The error of `http.NewRequestWithContext` for a URL, if there is one. -/
  newRequestErr : GoString → Option GoString
  /-- The call `http.DefaultClient.Do`: the response, or a transport error. -/
  httpDo : HttpRequest → Except GoString HttpResponse

/-- What one call of a forwarder did: the error it returned, the payload it
built (if it came that far) and the HTTP requests it issued. -/
structure ForwardResult (P : Type) where
  err : Option GoString
  payload : Option P
  requests : List HttpRequest
deriving DecidableEq, Repr

/-- The constant `http.StatusMultipleChoices`. -/
def StatusMultipleChoices : Int := 300

/-! ## `twilio_callback.go` -/

def sanitizeJIDToNumber (jid : JID) : GoString :=
  let user := TrimSpace jid.User
  TrimPrefix user "+".toList

def formatWhatsAppAddress (number : GoString) : GoString :=
  let number := TrimSpace number
  if number = [] then []
  else
    let number := TrimPrefix number "+".toList
    "whatsapp:+".toList ++ number

def resolveGroupName (env : Env) (evt : Event) (chatStorageRepo : Option ChatStorageRepo) :
    GoString :=
  let stored : Option GoString :=
    match chatStorageRepo with
    | none => none
    | some repo =>
      match repo.GetChat (env.jidString evt.Info.Chat) with
      | (some chat, none) => if chat.Name ≠ [] then some chat.Name else none
      | _ => none
  match stored with
  | some name => name
  | none =>
    -- Fall back to readable JID if no stored name is available
    if evt.Info.Chat.User ≠ [] then evt.Info.Chat.User
    else env.jidString evt.Info.Chat

def countMedia (msg : Option Message) : Int × GoString :=
  match msg with
  | none => (0, [])
  | some msg =>
    match msg.ImageMessage with
    | some img => (1, img.GetMimetype)
    | none =>
    match msg.VideoMessage with
    | some vid => (1, vid.GetMimetype)
    | none =>
    match msg.DocumentMessage with
    | some doc => (1, doc.GetMimetype)
    | none =>
    match msg.AudioMessage with
    | some audio => (1, audio.GetMimetype)
    | none =>
    match msg.StickerMessage with
    | some sticker => (1, sticker.GetMimetype)
    | none => (0, [])

/-- The number `ownNumber` of `buildTwilioPayload`: the gateway's own
number, empty when the device identity is not known. -/
def ownNumber (env : Env) : GoString :=
  match env.cli with
  | some c =>
    match c.Store with
    | some st =>
      match st.ID with
      | some id => sanitizeJIDToNumber id
      | none => []
    | none => []
  | none => []

/-- The two-tier text extraction both builders use. -/
def extractBody (env : Env) (evt : Event) : GoString :=
  let body := env.ExtractMessageTextFromEvent evt
  if body = [] then env.ExtractMessageTextFromProto evt.Message else body

/-- The number `senderNumber` of `buildTwilioPayload`: the sender's number,
or the chat's when the sender's is empty. -/
def senderNumber (evt : Event) : GoString :=
  let senderNumber := sanitizeJIDToNumber evt.Info.Sender
  if senderNumber = [] then sanitizeJIDToNumber evt.Info.Chat else senderNumber

def buildTwilioPayload (env : Env) (evt : Event) (chatStorageRepo : Option ChatStorageRepo) :
    Option TwilioMessage :=
  let senderNumber := senderNumber evt
  if senderNumber = [] then none
  else
    let ownNumber := ownNumber env
    let body := extractBody env evt
    let payload : TwilioMessage :=
      { WaID := senderNumber
        ProfileName := evt.Info.PushName
        SmsMessageSID := evt.Info.ID
        NumMedia := "0".toList
        SmsSID := evt.Info.ID
        SmsStatus := "received".toList
        Body := body
        To := formatWhatsAppAddress ownNumber
        NumSegments := "1".toList
        MessageSID := evt.Info.ID
        AccountSID := env.TwilioAccountSID
        From := formatWhatsAppAddress senderNumber
        GroupName := []
        FromGroup := false
        Latitude := []
        Longitude := []
        Address := []
        MediaContentType := [] }
    let payload :=
      if evt.Info.IsGroup then
        { payload with FromGroup := true, GroupName := resolveGroupName env evt chatStorageRepo }
      else payload
    let payload :=
      match evt.Message.bind (fun m => m.LocationMessage) with
      | some loc =>
        let payload :=
          { payload with
            Latitude := env.sprintfFloat loc.GetDegreesLatitude
            Longitude := env.sprintfFloat loc.GetDegreesLongitude }
        if loc.GetName ≠ [] then { payload with Address := loc.GetName }
        else if loc.GetAddress ≠ [] then { payload with Address := loc.GetAddress }
        else payload
      | none => payload
    let (mediaCount, mime) := countMedia evt.Message
    let payload :=
      if mediaCount > 0 then
        let payload := { payload with NumMedia := Itoa mediaCount }
        if mime ≠ [] then { payload with MediaContentType := mime } else payload
      else payload
    some payload

def forwardTwilioCallback (env : Env) (evt : Option Event)
    (chatStorageRepo : Option ChatStorageRepo) : ForwardResult TwilioMessage :=
  let endpoint := TrimSpace env.WhatsappAPIEndpoint
  match evt with
  | none => ⟨none, none, []⟩
  | some evt =>
    if endpoint = [] ∨ evt.Message = none ∨ evt.Info.IsFromMe = true ∨ evt.Info.IsGroup = true then
      ⟨none, none, []⟩
    else
      match buildTwilioPayload env evt chatStorageRepo with
      | none => ⟨none, none, []⟩
      | some payload =>
        match env.marshalTwilio payload with
        | .error e => ⟨some ("marshal twilio payload: ".toList ++ e), some payload, []⟩
        | .ok bodyBytes =>
          let callbackURL := TrimRight endpoint "/".toList ++ "/api/callback/twilio/".toList
          match env.newRequestErr callbackURL with
          | some e => ⟨some ("create twilio callback request: ".toList ++ e), some payload, []⟩
          | none =>
            let req : HttpRequest :=
              { Method := "POST".toList
                URL := callbackURL
                ContentType := "application/json".toList
                Body := bodyBytes
                TimeoutSeconds := 10 }
            match env.httpDo req with
            | .error e => ⟨some ("send twilio callback: ".toList ++ e), some payload, [req]⟩
            | .ok resp =>
              if resp.StatusCode ≥ StatusMultipleChoices then
                let respBody := readAllLimit resp.Body 2048
                ⟨some ("twilio callback returned ".toList ++ Itoa resp.StatusCode ++ ": ".toList ++
                    TrimSpace (bytesToString respBody)), some payload, [req]⟩
              else ⟨none, some payload, [req]⟩

/-! ## `outbound_callback.go` -/

/-- The device identifier `did` of `forwardOutboundDeviceMessage`: empty when
the device identity is not known. -/
def deviceID (env : Env) : GoString :=
  match env.cli with
  | some c =>
    match c.Store with
    | some st =>
      match st.ID with
      | some id => TrimSpace id.User
      | none => []
    | none => []
  | none => []

/-- The number `recipientNumber` of `forwardOutboundDeviceMessage`. -/
def recipientNumber (env : Env) (evt : Event) : GoString :=
  let chatJID := env.jidString evt.Info.Chat
  let recipientNumber := TrimPrefix (TrimSpace evt.Info.Chat.User) "+".toList
  if recipientNumber = [] then
    -- Fallback: use full JID user part
    (Split '@' chatJID).headD []
  else recipientNumber

/-- The payload `forwardOutboundDeviceMessage` assembles once the device
identifier `did` is known. -/
def buildOutboundPayload (env : Env) (evt : Event) (chatStorageRepo : Option ChatStorageRepo)
    (did : GoString) : outboundDevicePayload :=
  let recipientNumber := recipientNumber env evt
  let messageBody := extractBody env evt
  let name := evt.Info.PushName
  let (name, messageBody) :=
    if evt.Info.IsGroup then
      let groupName := resolveGroupName env evt chatStorageRepo
      let name := if groupName ≠ [] then groupName else name
      let messageBody :=
        if evt.Info.PushName ≠ [] then
          "*".toList ++ evt.Info.PushName ++ ['*', Char.ofNat 10, Char.ofNat 10] ++ messageBody
        else messageBody
      (name, messageBody)
    else (name, messageBody)
  let payload : outboundDevicePayload :=
    { Did := did
      Number := recipientNumber
      Name := name
      Text := messageBody
      CompanyNID := 6 }
  if env.CompanyNID > 0 then { payload with CompanyNID := env.CompanyNID } else payload

def forwardOutboundDeviceMessage (env : Env) (evt : Option Event)
    (chatStorageRepo : Option ChatStorageRepo) : ForwardResult outboundDevicePayload :=
  match evt with
  | none => ⟨none, none, []⟩
  | some evt =>
    match evt.Message with
    | none => ⟨none, none, []⟩
    | some msg =>
      -- Only process outbound messages sent from this device.
      if evt.Info.IsFromMe = false then ⟨none, none, []⟩
      -- Skip protocol messages (edits, revokes, etc.) for this callback.
      else if msg.ProtocolMessage ≠ none then ⟨none, none, []⟩
      else
        let endpoint := TrimSpace env.WhatsappAPIEndpoint
        if endpoint = [] then ⟨none, none, []⟩
        else
          let did := deviceID env
          if did = [] then
            ⟨some "cannot determine device ID for outbound callback".toList, none, []⟩
          else
            let payload := buildOutboundPayload env evt chatStorageRepo did
            match env.marshalOutbound payload with
            | .error e => ⟨some ("marshal outbound payload: ".toList ++ e), some payload, []⟩
            | .ok body =>
              let url := TrimRight endpoint "/".toList ++ "/api/callback/qr/message/send".toList
              match env.newRequestErr url with
              | some e => ⟨some ("create outbound request: ".toList ++ e), some payload, []⟩
              | none =>
                let req : HttpRequest :=
                  { Method := "POST".toList
                    URL := url
                    ContentType := "application/json".toList
                    Body := body
                    TimeoutSeconds := 30 }
                match env.httpDo req with
                | .error e => ⟨some ("send outbound request: ".toList ++ e), some payload, [req]⟩
                | .ok resp =>
                  if resp.StatusCode ≥ StatusMultipleChoices then
                    ⟨some ("outbound callback returned ".toList ++ Itoa resp.StatusCode),
                      some payload, [req]⟩
                  else ⟨none, some payload, [req]⟩

/-! ## `basicauth.go` -/

/-- The Go type of a context key. Two keys are equal only when their types
are; `other` stands for any type besides the two the middleware declares. -/
inductive KeyType where
  | AuthorizationValue
  | CompanyNidValue
  | other (n : Nat)
deriving DecidableEq, Repr

/-- A context key: a string value of one of the key types. -/
structure CtxKey where
  typ : KeyType
  val : GoString
deriving DecidableEq, Repr

/-- A value held in a context, by its dynamic type: a `string`, or a value of
some other type (which includes the key types, whose underlying type is
`string`). -/
inductive CtxValue where
  | string (s : GoString)
  | other (n : Nat)
deriving DecidableEq, Repr

/-- A `context.Context` as far as values go: the empty context, or a parent
with one key bound by `context.WithValue`. The value bound may be `nil`. -/
inductive Context where
  | background
  | withValue (parent : Context) (key : CtxKey) (val : Option CtxValue)
deriving DecidableEq, Repr

/-- The method `Value`: the value of the innermost binding of `key`, `nil`
when there is none. -/
def Context.Value : Context → CtxKey → Option CtxValue
  | .background, _ => none
  | .withValue parent k v, key => if k = key then v else parent.Value key

/-- The key `AuthorizationValue("BASIC_AUTH")`. -/
def basicAuthKey : CtxKey := ⟨.AuthorizationValue, "BASIC_AUTH".toList⟩

/-- The key `CompanyNidValue("COMPANY_NID")`. -/
def companyNidKey : CtxKey := ⟨.CompanyNidValue, "COMPANY_NID".toList⟩

/-- The handler `BasicAuth` as far as contexts go: from the request context
`c.Context()` and the `Authorization` header, the user context it sets, or
`none` when the header is empty and it sets none. -/
def BasicAuth (requestCtx : Context) (token : GoString) : Option Context :=
  if token ≠ [] then some (.withValue requestCtx basicAuthKey (some (.string token)))
  else none

def GetCompanyNidFromContext (ctx : Context) : GoString :=
  match ctx.Value companyNidKey with
  | some val =>
    match val with
    | .string companyNid => companyNid
    | _ => []
  | none => []

def SetCompanyNidInContext (ctx : Context) (companyNid : GoString) : Context :=
  .withValue ctx companyNidKey (some (.string companyNid))

/-- Whether `context.WithValue` bound `key` somewhere in the context. -/
def Context.binds : Context → CtxKey → Bool
  | .background, _ => false
  | .withValue parent k _, key => k == key || parent.binds key

/-! ## The media order, in the words of the specification -/

/-- The media variants of a body in the order of the check: image, video,
document, audio, sticker. -/
def mediaVariants (msg : Message) : List (Option MediaMessage) :=
  [msg.ImageMessage, msg.VideoMessage, msg.DocumentMessage, msg.AudioMessage, msg.StickerMessage]

/-- The first media variant present in that order, if there is one. -/
def firstMedia (msg : Message) : Option MediaMessage :=
  (mediaVariants msg).findSome? id

/-! ## Sample inputs -/

/-- The string form of an identifier as `user@server`. -/
def sampleJidString (j : JID) : GoString :=
  j.User ++ '@' :: j.Server

/-- An environment with a known device identity, whose endpoint answers every
request with `status` and `body`. -/
def sampleEnv (status : Int) (body : List Nat) : Env :=
  { WhatsappAPIEndpoint := " http://api.test/ ".toList
    CompanyNID := 0
    TwilioAccountSID := "AC1".toList
    cli := some ⟨some ⟨some ⟨"5491100".toList, "s.whatsapp.net".toList⟩⟩⟩
    jidString := sampleJidString
    ExtractMessageTextFromEvent := fun _ => "hi".toList
    ExtractMessageTextFromProto := fun _ => []
    sprintfFloat := fun _ => "0.000000".toList
    marshalTwilio := fun _ => .ok []
    marshalOutbound := fun _ => .ok []
    newRequestErr := fun _ => none
    httpDo := fun _ => .ok ⟨status, body⟩ }

/-- The sample environment without a client handle. -/
def sampleEnvNoDevice : Env :=
  { sampleEnv 200 [] with cli := none }

/-- A message body with no variant set. -/
def emptyMessage : Message :=
  { ImageMessage := none, VideoMessage := none, DocumentMessage := none
    AudioMessage := none, StickerMessage := none, LocationMessage := none
    ProtocolMessage := none }

/-- A direct message from the user-part `user`, self-originated or not. -/
def sampleEvent (user : GoString) (fromMe : Bool) : Event :=
  { Info :=
      { Chat := ⟨user, "s.whatsapp.net".toList⟩
        Sender := ⟨user, "s.whatsapp.net".toList⟩
        IsFromMe := fromMe
        IsGroup := false
        ID := "M1".toList
        PushName := "Ann".toList }
    Message := some emptyMessage }

/-- A group message in the chat "12036" from a sender with the display name
`pushName`, self-originated or not. -/
def sampleGroupEvent (pushName : GoString) (fromMe : Bool) : Event :=
  { Info :=
      { Chat := ⟨"12036".toList, "g.us".toList⟩
        Sender := ⟨"1555".toList, "s.whatsapp.net".toList⟩
        IsFromMe := fromMe
        IsGroup := true
        ID := "M2".toList
        PushName := pushName }
    Message := some emptyMessage }

/-- A storage collaborator that knows every chat under the name "Team". -/
def sampleRepo : ChatStorageRepo :=
  { GetChat := fun _ => (some ⟨"Team".toList⟩, none) }

/-- A storage collaborator whose lookup fails; it still hands back a record. -/
def failingRepo : ChatStorageRepo :=
  { GetChat := fun _ => (some ⟨"Team".toList⟩, some "db closed".toList) }

/-- A location body with the given name and address. -/
def locationMessage (name address : GoString) : Message :=
  { emptyMessage with
    LocationMessage := some
      { DegreesLatitude := some 1, DegreesLongitude := some 2
        Name := some name, Address := some address } }

/-- Whether a rune is an ASCII control character: below U+0020, or U+007F. -/
def isCTL (c : Char) : Bool :=
  c.toNat < 0x20 || c.toNat == 0x7F

/-- What follows the first "://" of a URL; empty when there is none. -/
def afterScheme : GoString → GoString
  | [] => []
  | c :: rest => if c = ':' ∧ rest.take 2 = "//".toList then rest.drop 2 else afterScheme rest

/-- The host part of a URL `scheme://host/path`: what stands between "://" and
the next `/`. -/
def urlHost (url : GoString) : GoString :=
  (afterScheme url).takeWhile (fun c => c ≠ '/')

/-- A URL check for the sample environments, as strict as the parsing inside
`http.NewRequestWithContext` on the two points that matter for an endpoint with
blanks: a control character anywhere in the URL is an error, and so is a blank
in the host part; a blank in the path is accepted. -/
def sampleNewRequestErr (url : GoString) : Option GoString :=
  if url.any isCTL then some "invalid control character in URL".toList
  else if (urlHost url).contains ' ' then some "invalid character in host name".toList
  else none

/-- The sample environment with the endpoint `endpoint` and the URL check
`sampleNewRequestErr`; it answers every request that passes with 200. -/
def sampleEnvAt (endpoint : GoString) : Env :=
  { sampleEnv 200 [] with
    WhatsappAPIEndpoint := endpoint
    newRequestErr := sampleNewRequestErr }

/-! ## Facts about the string helpers -/

theorem TrimPrefix_plus_cons (t : GoString) : TrimPrefix ('+' :: t) "+".toList = t := by
  simp [TrimPrefix, HasPrefix]

theorem TrimPrefix_plus_of_ne (s : GoString) (h : s.head? ≠ some '+') :
    TrimPrefix s "+".toList = s := by
  cases s with
  | nil => simp [TrimPrefix, HasPrefix]
  | cons c t =>
    have hc : c ≠ '+' := by simpa using h
    have hc2 : ¬ ('+' = c) := fun e => hc e.symm
    simp [TrimPrefix, HasPrefix, hc2]

theorem TrimSpace_eq_nil_iff (s : GoString) :
    TrimSpace s = [] ↔ ∀ c ∈ s, isSpace c = true := by
  unfold TrimSpace TrimRightFunc TrimLeftFunc
  rw [List.reverse_eq_nil_iff, List.dropWhile_eq_nil_iff]
  constructor
  · intro h
    by_contra hne
    have hd : s.dropWhile isSpace ≠ [] := by
      intro e
      exact hne (List.dropWhile_eq_nil_iff.mp e)
    have h1 := List.head_dropWhile_not isSpace s hd
    have h2 := h _ (List.mem_reverse.mpr (List.head_mem hd))
    simp [h2] at h1
  · intro h c hc
    have : s.dropWhile isSpace = [] := List.dropWhile_eq_nil_iff.mpr h
    simp [this] at hc

theorem TrimSpace_getLast_not_space (s : GoString) (h : TrimSpace s ≠ []) :
    isSpace ((TrimSpace s).getLast h) = false := by
  unfold TrimSpace TrimRightFunc at h ⊢
  have hd : (TrimLeftFunc s isSpace).reverse.dropWhile isSpace ≠ [] := by
    simpa using h
  have h1 := List.head_dropWhile_not isSpace _ hd
  rw [List.getLast_reverse]
  simpa using h1

theorem mem_not_space_of_TrimSpace_ne_nil (s : GoString) (h : TrimSpace s ≠ []) :
    ∃ c ∈ s, isSpace c = false := by
  by_contra hne
  apply h
  rw [TrimSpace_eq_nil_iff]
  intro c hc
  by_contra hs
  exact hne ⟨c, hc, by simpa using hs⟩

/-- A non-empty result of trimming and removing one `+` holds a rune that is
not white space, so trimming it again leaves something. -/
theorem TrimSpace_TrimPrefix_TrimSpace_ne_nil (u : GoString)
    (h : TrimPrefix (TrimSpace u) "+".toList ≠ []) :
    TrimSpace (TrimPrefix (TrimSpace u) "+".toList) ≠ [] := by
  intro hnil
  rw [TrimSpace_eq_nil_iff] at hnil
  have ht : TrimSpace u ≠ [] := by
    intro e
    rw [e] at h
    exact h (by decide)
  have hlast := TrimSpace_getLast_not_space u ht
  have hmem : (TrimSpace u).getLast ht ∈ TrimPrefix (TrimSpace u) "+".toList := by
    generalize TrimSpace u = t at h ht
    cases t with
    | nil => exact absurd rfl ht
    | cons c r =>
      by_cases hc : c = '+'
      · subst hc
        rw [TrimPrefix_plus_cons] at h ⊢
        rw [List.getLast_cons h]
        exact List.getLast_mem h
      · rw [TrimPrefix_plus_of_ne _ (by simpa using hc)]
        exact List.getLast_mem ht
  have := hnil _ hmem
  rw [this] at hlast
  exact absurd hlast (by decide)

/-! ## Facts about the Schema B builder -/

theorem formatWhatsAppAddress_of_ne (n : GoString) (h : TrimSpace n ≠ []) :
    formatWhatsAppAddress n = "whatsapp:+".toList ++ TrimPrefix (TrimSpace n) "+".toList := by
  simp [formatWhatsAppAddress, h]

theorem formatWhatsAppAddress_of_blank (n : GoString) (h : TrimSpace n = []) :
    formatWhatsAppAddress n = [] := by
  simp [formatWhatsAppAddress, h]

theorem buildTwilioPayload_eq_none_iff (env : Env) (evt : Event) (repo : Option ChatStorageRepo) :
    buildTwilioPayload env evt repo = none ↔ senderNumber evt = [] := by
  unfold buildTwilioPayload
  by_cases h : senderNumber evt = []
  · simp [h]
  · simp [h]

theorem buildTwilioPayload_fixed_fields (env : Env) (evt : Event) (repo : Option ChatStorageRepo)
    (p : TwilioMessage) (h : buildTwilioPayload env evt repo = some p) :
    p.WaID = senderNumber evt ∧ p.From = formatWhatsAppAddress (senderNumber evt) ∧
      p.To = formatWhatsAppAddress (ownNumber env) ∧ p.NumSegments = "1".toList ∧
      p.SmsStatus = "received".toList := by
  unfold buildTwilioPayload at h
  by_cases hs : senderNumber evt = []
  · simp [hs] at h
  · simp only [hs, if_false] at h
    injection h with h
    subst h
    repeat' split
    all_goals simp

theorem forwardTwilioCallback_payload (env : Env) (evt : Event) (repo : Option ChatStorageRepo)
    (hm : evt.Message ≠ none) (hme : evt.Info.IsFromMe = false) (hg : evt.Info.IsGroup = false)
    (he : TrimSpace env.WhatsappAPIEndpoint ≠ []) :
    (forwardTwilioCallback env (some evt) repo).payload = buildTwilioPayload env evt repo := by
  unfold forwardTwilioCallback
  simp only [hm, hme, hg, he, or_self, if_false, Bool.false_eq_true]
  repeat' split
  all_goals simp_all

theorem head?_TrimPrefix_plus (t : GoString)
    (h : (TrimPrefix t "+".toList).head? = some '+') : "++".toList <+: t := by
  cases t with
  | nil => simp [TrimPrefix, HasPrefix] at h
  | cons c r =>
    by_cases hc : c = '+'
    · subst hc
      rw [TrimPrefix_plus_cons] at h
      cases r with
      | nil => simp at h
      | cons d r2 =>
        have hd : d = '+' := by simpa using h
        subst hd
        exact ⟨r2, rfl⟩
    · rw [TrimPrefix_plus_of_ne _ (by simpa using hc)] at h
      exact absurd (by simpa using h) hc

theorem head?_Split_headD (s : GoString) :
    ((Split '@' s).headD []).head? = some '+' ↔ s.head? = some '+' := by
  cases s with
  | nil => simp [Split]
  | cons c cs =>
    by_cases hc : c = '@'
    · subst hc
      simp [Split]
    · simp only [Split, hc, if_false]
      split <;> simp

/-- C1, as amended. Every event with a resolvable (non-empty) sender number
gets a Schema B payload from `buildTwilioPayload` with `NumSegments` "1" and
`SmsStatus` "received", whose `From` begins with "whatsapp:+". Its `To`
begins with "whatsapp:+" when the gateway's own number is not blank and is
the empty string otherwise, in particular when there is no client handle.
When the event has a body, is not self-originated, is not from a group and
the endpoint is not blank, this payload is the one `forwardTwilioCallback`
builds. -/
theorem buildTwilioPayload_schemaB (env : Env) (evt : Event) (repo : Option ChatStorageRepo)
    (hs : senderNumber evt ≠ []) :
    ∃ p, buildTwilioPayload env evt repo = some p ∧
      p.NumSegments = "1".toList ∧ p.SmsStatus = "received".toList ∧
      "whatsapp:+".toList <+: p.From ∧
      (TrimSpace (ownNumber env) ≠ [] → "whatsapp:+".toList <+: p.To) ∧
      (TrimSpace (ownNumber env) = [] → p.To = []) ∧
      (env.cli = none → p.To = []) ∧
      (evt.Message ≠ none → evt.Info.IsFromMe = false → evt.Info.IsGroup = false →
        TrimSpace env.WhatsappAPIEndpoint ≠ [] →
        (forwardTwilioCallback env (some evt) repo).payload = some p) := by
  cases hb : buildTwilioPayload env evt repo with
  | none => exact absurd ((buildTwilioPayload_eq_none_iff env evt repo).mp hb) hs
  | some p =>
    obtain ⟨_, hfrom, hto, hseg, hst⟩ := buildTwilioPayload_fixed_fields env evt repo p hb
    have hsn : TrimSpace (senderNumber evt) ≠ [] := by
      unfold senderNumber at hs ⊢
      unfold sanitizeJIDToNumber at hs ⊢
      by_cases h1 : TrimPrefix (TrimSpace evt.Info.Sender.User) "+".toList = []
      · simp only [h1, if_true] at hs ⊢
        exact TrimSpace_TrimPrefix_TrimSpace_ne_nil _ hs
      · simp only [h1, if_false] at hs ⊢
        exact TrimSpace_TrimPrefix_TrimSpace_ne_nil _ hs
    refine ⟨p, rfl, hseg, hst, ?_, ?_, ?_, ?_, ?_⟩
    · rw [hfrom, formatWhatsAppAddress_of_ne _ hsn]
      exact List.prefix_append _ _
    · intro h
      rw [hto, formatWhatsAppAddress_of_ne _ h]
      exact List.prefix_append _ _
    · intro h
      rw [hto, formatWhatsAppAddress_of_blank _ h]
    · intro h
      rw [hto]
      simp [ownNumber, h, formatWhatsAppAddress, TrimSpace, TrimLeftFunc, TrimRightFunc]
    · intro hm hme hg he
      rw [forwardTwilioCallback_payload env evt repo hm hme hg he, hb]

/-- C1, witness: the sample event from "+1555" in the sample environment. -/
theorem buildTwilioPayload_schemaB_witness :
    senderNumber (sampleEvent "+1555".toList false) ≠ [] ∧
    ∃ p, buildTwilioPayload (sampleEnv 200 []) (sampleEvent "+1555".toList false) none = some p ∧
      p.NumSegments = "1".toList ∧ p.SmsStatus = "received".toList ∧
      "whatsapp:+".toList <+: p.From ∧
      (TrimSpace (ownNumber (sampleEnv 200 [])) ≠ [] → "whatsapp:+".toList <+: p.To) ∧
      (TrimSpace (ownNumber (sampleEnv 200 [])) = [] → p.To = []) ∧
      ((sampleEnv 200 []).cli = none → p.To = []) ∧
      ((sampleEvent "+1555".toList false).Message ≠ none →
        (sampleEvent "+1555".toList false).Info.IsFromMe = false →
        (sampleEvent "+1555".toList false).Info.IsGroup = false →
        TrimSpace (sampleEnv 200 []).WhatsappAPIEndpoint ≠ [] →
        (forwardTwilioCallback (sampleEnv 200 []) (some (sampleEvent "+1555".toList false)) none).payload
          = some p) :=
  ⟨by decide, buildTwilioPayload_schemaB (sampleEnv 200 []) (sampleEvent "+1555".toList false) none
    (by decide)⟩

/-- C1, counterexample: a direct, not self-originated event with a non-blank
endpoint and the sender number "1555", in an environment without a client
handle. The payload's `To` is the empty string, which does not begin with
"whatsapp:+". -/
theorem buildTwilioPayload_To_without_device :
    (sampleEvent "1555".toList false).Info.IsFromMe = false ∧
    (sampleEvent "1555".toList false).Info.IsGroup = false ∧
    TrimSpace sampleEnvNoDevice.WhatsappAPIEndpoint ≠ [] ∧
    senderNumber (sampleEvent "1555".toList false) = "1555".toList ∧
    (buildTwilioPayload sampleEnvNoDevice (sampleEvent "1555".toList false) none).map
      TwilioMessage.To = some [] ∧
    ¬ ("whatsapp:+".toList <+: ([] : GoString)) := by
  decide

/-! ## Phone-number fields (C2) -/

/-- C2, as amended. For every event whose sender and chat user-parts, once
trimmed, do not begin with two `+` characters: the `WaId` of a Schema B
payload does not begin with `+`; the `number` of a Schema A payload does not
begin with `+` when the number taken from the chat user-part is not empty;
and on the split-on-`@` fallback the `number` is the chat identifier's string
form up to its first `@`, which begins with `+` exactly when that string
does. -/
theorem phone_number_fields_no_plus (env : Env) (evt : Event) (repo : Option ChatStorageRepo)
    (did : GoString)
    (hs : ¬ "++".toList <+: TrimSpace evt.Info.Sender.User)
    (hc : ¬ "++".toList <+: TrimSpace evt.Info.Chat.User) :
    (∀ p, buildTwilioPayload env evt repo = some p → p.WaID.head? ≠ some '+') ∧
    (TrimPrefix (TrimSpace evt.Info.Chat.User) "+".toList ≠ [] →
      (buildOutboundPayload env evt repo did).Number.head? ≠ some '+') ∧
    (TrimPrefix (TrimSpace evt.Info.Chat.User) "+".toList = [] →
      (buildOutboundPayload env evt repo did).Number = (Split '@' (env.jidString evt.Info.Chat)).headD [] ∧
      ((buildOutboundPayload env evt repo did).Number.head? = some '+' ↔
        (env.jidString evt.Info.Chat).head? = some '+')) := by
  have hnum : (buildOutboundPayload env evt repo did).Number = recipientNumber env evt := by
    unfold buildOutboundPayload
    repeat' split
    all_goals simp
  refine ⟨?_, ?_, ?_⟩
  · intro p hp
    rw [(buildTwilioPayload_fixed_fields env evt repo p hp).1]
    unfold senderNumber sanitizeJIDToNumber
    intro h
    by_cases h1 : TrimPrefix (TrimSpace evt.Info.Sender.User) "+".toList = []
    · simp only [h1, if_true] at h
      exact hc (head?_TrimPrefix_plus _ h)
    · simp only [h1, if_false] at h
      exact hs (head?_TrimPrefix_plus _ h)
  · intro hne h
    rw [hnum] at h
    unfold recipientNumber at h
    simp only [hne, if_false] at h
    exact hc (head?_TrimPrefix_plus _ h)
  · intro he
    have : recipientNumber env evt = (Split '@' (env.jidString evt.Info.Chat)).headD [] := by
      unfold recipientNumber
      simp only [he, if_true]
    rw [hnum, this]
    exact ⟨rfl, head?_Split_headD _⟩

/-- C2, witness: the sample event from "+1555". -/
theorem phone_number_fields_no_plus_witness :
    (¬ "++".toList <+: TrimSpace (sampleEvent "+1555".toList true).Info.Sender.User) ∧
    (¬ "++".toList <+: TrimSpace (sampleEvent "+1555".toList true).Info.Chat.User) ∧
    (∀ p, buildTwilioPayload (sampleEnv 200 []) (sampleEvent "+1555".toList true) none = some p →
      p.WaID.head? ≠ some '+') ∧
    (TrimPrefix (TrimSpace (sampleEvent "+1555".toList true).Info.Chat.User) "+".toList ≠ [] →
      (buildOutboundPayload (sampleEnv 200 []) (sampleEvent "+1555".toList true) none
        "5491100".toList).Number.head? ≠ some '+') ∧
    (TrimPrefix (TrimSpace (sampleEvent "+1555".toList true).Info.Chat.User) "+".toList = [] →
      (buildOutboundPayload (sampleEnv 200 []) (sampleEvent "+1555".toList true) none
        "5491100".toList).Number =
        (Split '@' ((sampleEnv 200 []).jidString (sampleEvent "+1555".toList true).Info.Chat)).headD [] ∧
      ((buildOutboundPayload (sampleEnv 200 []) (sampleEvent "+1555".toList true) none
        "5491100".toList).Number.head? = some '+' ↔
        ((sampleEnv 200 []).jidString (sampleEvent "+1555".toList true).Info.Chat).head? = some '+')) :=
  ⟨by decide, by decide,
    phone_number_fields_no_plus (sampleEnv 200 []) (sampleEvent "+1555".toList true) none
      "5491100".toList (by decide) (by decide)⟩

/-- C2, counterexample: the user-part "++1555". One `+` is removed, so the
`WaId` of the Schema B payload and the `number` of the Schema A payload are
both "+1555", which begins with `+`. -/
theorem phone_number_fields_double_plus :
    sanitizeJIDToNumber ⟨"++1555".toList, "s.whatsapp.net".toList⟩ = "+1555".toList ∧
    (buildTwilioPayload (sampleEnv 200 []) (sampleEvent "++1555".toList false) none).map
      TwilioMessage.WaID = some "+1555".toList ∧
    (buildOutboundPayload (sampleEnv 200 []) (sampleEvent "++1555".toList true) none
      "5491100".toList).Number = "+1555".toList ∧
    ("+1555".toList).head? = some '+' := by
  decide

/-! ## The protocol address (C3) -/

/-- What `formatWhatsAppAddress` computes: the empty string when the input is
blank, and otherwise "whatsapp:+" followed by the trimmed input without one
leading `+`, whether or not anything is left of it. -/
theorem formatWhatsAppAddress_eq (s : GoString) :
    formatWhatsAppAddress s =
      if TrimSpace s = [] then [] else "whatsapp:+".toList ++ TrimPrefix (TrimSpace s) "+".toList := by
  by_cases h : TrimSpace s = []
  · simp [formatWhatsAppAddress, h]
  · simp [formatWhatsAppAddress, h]

/-- C3, at the failing inputs: for "+" and " + " the remainder after trimming
and removing the `+` is empty, and `formatWhatsAppAddress` returns the bare
"whatsapp:+" instead of the empty string. -/
theorem formatWhatsAppAddress_plus_only :
    TrimPrefix (TrimSpace "+".toList) "+".toList = [] ∧
    formatWhatsAppAddress "+".toList = "whatsapp:+".toList ∧
    TrimPrefix (TrimSpace " + ".toList) "+".toList = [] ∧
    formatWhatsAppAddress " + ".toList = "whatsapp:+".toList := by
  decide

/-! ## The eligibility gates (C4, C5, C6) -/

/-- The result of a forwarder that skips the event: no error, no payload
built, no request issued. -/
theorem forwardOutboundDeviceMessage_skip_iff (env : Env) (evt : Option Event)
    (repo : Option ChatStorageRepo) :
    forwardOutboundDeviceMessage env evt repo = ⟨none, none, []⟩ ↔
      (evt = none ∨ ∃ e, evt = some e ∧
        (e.Message = none ∨ e.Info.IsFromMe = false ∨
          (∃ m, e.Message = some m ∧ m.ProtocolMessage ≠ none) ∨
          TrimSpace env.WhatsappAPIEndpoint = [])) := by
  cases evt with
  | none => simp [forwardOutboundDeviceMessage]
  | some e =>
    cases hm : e.Message with
    | none => simp [forwardOutboundDeviceMessage, hm]
    | some m =>
      by_cases hme : e.Info.IsFromMe = false
      · simp [forwardOutboundDeviceMessage, hm, hme]
      by_cases hp : m.ProtocolMessage = none
      swap
      · simp [forwardOutboundDeviceMessage, hm, hme, hp]
      by_cases he : TrimSpace env.WhatsappAPIEndpoint = []
      · simp [forwardOutboundDeviceMessage, hm, hme, hp, he]
      have hme2 : e.Info.IsFromMe = true := by simpa using hme
      simp only [forwardOutboundDeviceMessage, hm, hme2, hp, he, if_false, ne_eq,
        not_true_eq_false, Bool.true_eq_false]
      constructor
      · intro h
        exfalso
        revert h
        repeat' split
        all_goals simp
      · intro h
        simp_all

/-- C4. `forwardTwilioCallback` skips silently (no error, no payload built,
no HTTP request) whenever the endpoint is blank after trimming, the event is
`nil`, its body is `nil`, it is self-originated, or it comes from a group;
in particular a group event never gets a Schema B payload. -/
theorem forwardTwilioCallback_skip (env : Env) (evt : Option Event)
    (repo : Option ChatStorageRepo)
    (h : TrimSpace env.WhatsappAPIEndpoint = [] ∨ evt = none ∨
      ∃ e, evt = some e ∧
        (e.Message = none ∨ e.Info.IsFromMe = true ∨ e.Info.IsGroup = true)) :
    forwardTwilioCallback env evt repo = ⟨none, none, []⟩ ∧
      (forwardTwilioCallback env evt repo).err = none ∧
      (forwardTwilioCallback env evt repo).payload = none ∧
      (forwardTwilioCallback env evt repo).requests = [] := by
  have key : forwardTwilioCallback env evt repo = ⟨none, none, []⟩ := by
    unfold forwardTwilioCallback
    cases evt with
    | none => rfl
    | some e =>
      have hc : TrimSpace env.WhatsappAPIEndpoint = [] ∨ e.Message = none ∨
          e.Info.IsFromMe = true ∨ e.Info.IsGroup = true := by
        rcases h with h | h | ⟨e2, he, h⟩
        · exact Or.inl h
        · exact absurd h (by simp)
        · cases he
          exact Or.inr h
      simp only [hc, if_true]
  rw [key]
  exact ⟨rfl, rfl, rfl, rfl⟩

/-- C4, witness: a group event in the sample environment. -/
theorem forwardTwilioCallback_skip_witness :
    (TrimSpace (sampleEnv 200 []).WhatsappAPIEndpoint = [] ∨
      some { sampleEvent "1555".toList false with
        Info := { (sampleEvent "1555".toList false).Info with IsGroup := true } } = none ∨
      ∃ e, some { sampleEvent "1555".toList false with
          Info := { (sampleEvent "1555".toList false).Info with IsGroup := true } } = some e ∧
        (e.Message = none ∨ e.Info.IsFromMe = true ∨ e.Info.IsGroup = true)) ∧
    (forwardTwilioCallback (sampleEnv 200 [])
        (some { sampleEvent "1555".toList false with
          Info := { (sampleEvent "1555".toList false).Info with IsGroup := true } }) none
        = ⟨none, none, []⟩ ∧
      (forwardTwilioCallback (sampleEnv 200 [])
        (some { sampleEvent "1555".toList false with
          Info := { (sampleEvent "1555".toList false).Info with IsGroup := true } }) none).err = none ∧
      (forwardTwilioCallback (sampleEnv 200 [])
        (some { sampleEvent "1555".toList false with
          Info := { (sampleEvent "1555".toList false).Info with IsGroup := true } }) none).payload
        = none ∧
      (forwardTwilioCallback (sampleEnv 200 [])
        (some { sampleEvent "1555".toList false with
          Info := { (sampleEvent "1555".toList false).Info with IsGroup := true } }) none).requests
        = []) :=
  ⟨Or.inr (Or.inr ⟨_, rfl, Or.inr (Or.inr rfl)⟩),
    forwardTwilioCallback_skip (sampleEnv 200 []) _ none
      (Or.inr (Or.inr ⟨_, rfl, Or.inr (Or.inr rfl)⟩))⟩

/-- The device identifier is empty exactly when the client handle, its store
or the store's identifier is `nil`, or the identifier's user-part is blank. -/
theorem deviceID_eq_nil_iff (env : Env) :
    deviceID env = [] ↔
      ∀ c st id, env.cli = some c → c.Store = some st → st.ID = some id →
        TrimSpace id.User = [] := by
  unfold deviceID
  cases hc : env.cli with
  | none => simp
  | some c =>
    cases hs : c.Store with
    | none =>
      refine ⟨fun _ => ?_, fun _ => by simp only [hs]⟩
      intro c2 st id h1 h2
      cases h1
      rw [hs] at h2
      cases h2
    | some st =>
      cases hi : st.ID with
      | none =>
        refine ⟨fun _ => ?_, fun _ => by simp only [hs, hi]⟩
        intro c2 st2 id h1 h2 h3
        cases h1
        rw [hs] at h2
        cases h2
        rw [hi] at h3
        cases h3
      | some id =>
        simp only [hs, hi]
        constructor
        · intro h c2 st2 id2 h1 h2 h3
          cases h1
          rw [hs] at h2
          cases h2
          rw [hi] at h3
          cases h3
          exact h
        · intro h
          exact h c st id rfl hs hi

/-- What `forwardOutboundDeviceMessage` does with an event that passes the
first three rules of its gate. -/
theorem forwardOutboundDeviceMessage_pass (env : Env) (e : Event) (m : Message)
    (repo : Option ChatStorageRepo) (hm : e.Message = some m) (hme : e.Info.IsFromMe = true)
    (hp : m.ProtocolMessage = none) (he : TrimSpace env.WhatsappAPIEndpoint ≠ []) :
    (deviceID env = [] →
      forwardOutboundDeviceMessage env (some e) repo =
        ⟨some "cannot determine device ID for outbound callback".toList, none, []⟩) ∧
    (deviceID env ≠ [] →
      (forwardOutboundDeviceMessage env (some e) repo).payload =
        some (buildOutboundPayload env e repo (deviceID env)) ∧
      (forwardOutboundDeviceMessage env (some e) repo).err ≠
        some "cannot determine device ID for outbound callback".toList) := by
  constructor
  · intro hd
    simp [forwardOutboundDeviceMessage, hm, hme, hp, he, hd]
  · intro hd
    simp only [forwardOutboundDeviceMessage, hm, hme, hp, he, hd, if_false, ne_eq,
      not_true_eq_false, Bool.true_eq_false]
    repeat' split
    all_goals simp

/-- C5. The Schema A gate in its order: `forwardOutboundDeviceMessage` skips
(no error, no payload, no request) when the event is `nil`, its body is `nil`
or it is not self-originated; when the body is a protocol message; and when
the endpoint is blank after trimming. It returns the error "cannot determine
device ID for outbound callback" if and only if the event passed those three
rules and the gateway's device identifier is absent or blank after trimming,
and then it has built no payload and issued no request. -/
theorem forwardOutboundDeviceMessage_gate (env : Env) (evt : Option Event)
    (repo : Option ChatStorageRepo) :
    ((evt = none ∨ ∃ e, evt = some e ∧ (e.Message = none ∨ e.Info.IsFromMe = false)) →
      forwardOutboundDeviceMessage env evt repo = ⟨none, none, []⟩) ∧
    ((∃ e m, evt = some e ∧ e.Message = some m ∧ m.ProtocolMessage ≠ none) →
      forwardOutboundDeviceMessage env evt repo = ⟨none, none, []⟩) ∧
    (TrimSpace env.WhatsappAPIEndpoint = [] →
      forwardOutboundDeviceMessage env evt repo = ⟨none, none, []⟩) ∧
    ((forwardOutboundDeviceMessage env evt repo).err =
        some "cannot determine device ID for outbound callback".toList ↔
      ∃ e m, evt = some e ∧ e.Message = some m ∧ e.Info.IsFromMe = true ∧
        m.ProtocolMessage = none ∧ TrimSpace env.WhatsappAPIEndpoint ≠ [] ∧
        ∀ c st id, env.cli = some c → c.Store = some st → st.ID = some id →
          TrimSpace id.User = []) ∧
    ((forwardOutboundDeviceMessage env evt repo).err =
        some "cannot determine device ID for outbound callback".toList →
      (forwardOutboundDeviceMessage env evt repo).payload = none ∧
      (forwardOutboundDeviceMessage env evt repo).requests = []) := by
  have hiff : (forwardOutboundDeviceMessage env evt repo).err =
        some "cannot determine device ID for outbound callback".toList ↔
      ∃ e m, evt = some e ∧ e.Message = some m ∧ e.Info.IsFromMe = true ∧
        m.ProtocolMessage = none ∧ TrimSpace env.WhatsappAPIEndpoint ≠ [] ∧
        deviceID env = [] := by
    constructor
    · intro h
      have hns : forwardOutboundDeviceMessage env evt repo ≠ ⟨none, none, []⟩ := by
        intro e
        rw [e] at h
        exact absurd h (by simp)
      rw [Ne, forwardOutboundDeviceMessage_skip_iff] at hns
      cases evt with
      | none => exact absurd (Or.inl rfl) hns
      | some e =>
        cases hm : e.Message with
        | none => exact absurd (Or.inr ⟨e, rfl, Or.inl hm⟩) hns
        | some m =>
          have hme : e.Info.IsFromMe = true := by
            by_contra hc
            exact hns (Or.inr ⟨e, rfl, Or.inr (Or.inl (by simpa using hc))⟩)
          have hp : m.ProtocolMessage = none := by
            by_contra hc
            exact hns (Or.inr ⟨e, rfl, Or.inr (Or.inr (Or.inl ⟨m, hm, hc⟩))⟩)
          have he : TrimSpace env.WhatsappAPIEndpoint ≠ [] := by
            intro hc
            exact hns (Or.inr ⟨e, rfl, Or.inr (Or.inr (Or.inr hc))⟩)
          refine ⟨e, m, rfl, hm, hme, hp, he, ?_⟩
          by_contra hd
          exact ((forwardOutboundDeviceMessage_pass env e m repo hm hme hp he).2 hd).2 h
    · rintro ⟨e, m, rfl, hm, hme, hp, he, hd⟩
      rw [(forwardOutboundDeviceMessage_pass env e m repo hm hme hp he).1 hd]
  refine ⟨?_, ?_, ?_, ?_, ?_⟩
  · intro h
    rw [forwardOutboundDeviceMessage_skip_iff]
    rcases h with h | ⟨e, he, h | h⟩
    · exact Or.inl h
    · exact Or.inr ⟨e, he, Or.inl h⟩
    · exact Or.inr ⟨e, he, Or.inr (Or.inl h)⟩
  · rintro ⟨e, m, he, hm, hp⟩
    rw [forwardOutboundDeviceMessage_skip_iff]
    exact Or.inr ⟨e, he, Or.inr (Or.inr (Or.inl ⟨m, hm, hp⟩))⟩
  · intro h
    rw [forwardOutboundDeviceMessage_skip_iff]
    cases evt with
    | none => exact Or.inl rfl
    | some e => exact Or.inr ⟨e, rfl, Or.inr (Or.inr (Or.inr h))⟩
  · rw [hiff]
    simp only [deviceID_eq_nil_iff]
  · intro h
    obtain ⟨e, m, rfl, hm, hme, hp, he, hd⟩ := hiff.mp h
    rw [(forwardOutboundDeviceMessage_pass env e m repo hm hme hp he).1 hd]
    exact ⟨rfl, rfl⟩

/-- C5, at sample inputs: without a client handle the self-originated sample
event gets the device-identity error, and the same event when it is not
self-originated is skipped without an error. -/
theorem forwardOutboundDeviceMessage_gate_witness :
    (forwardOutboundDeviceMessage sampleEnvNoDevice (some (sampleEvent "1555".toList true))
      none).err = some "cannot determine device ID for outbound callback".toList ∧
    forwardOutboundDeviceMessage sampleEnvNoDevice (some (sampleEvent "1555".toList false))
      none = ⟨none, none, []⟩ :=
  ⟨(forwardOutboundDeviceMessage_gate sampleEnvNoDevice _ none).2.2.2.1.mpr
      ⟨_, _, rfl, rfl, rfl, rfl, by decide, fun _ _ _ h => nomatch h⟩,
    (forwardOutboundDeviceMessage_gate sampleEnvNoDevice _ none).1
      (Or.inr ⟨_, rfl, Or.inr rfl⟩)⟩

/-- C6. No event passes both gates: for every environment and event, at
least one of `forwardOutboundDeviceMessage` and `forwardTwilioCallback` skips
(no error, no payload, no request), so an event for which a Schema A payload
is built gets no Schema B payload and the other way round. -/
theorem gates_disjoint (env : Env) (evt : Option Event)
    (repoA repoB : Option ChatStorageRepo) :
    (forwardOutboundDeviceMessage env evt repoA = ⟨none, none, []⟩ ∨
      forwardTwilioCallback env evt repoB = ⟨none, none, []⟩) ∧
    ¬ ((forwardOutboundDeviceMessage env evt repoA).payload ≠ none ∧
      (forwardTwilioCallback env evt repoB).payload ≠ none) := by
  have key : forwardOutboundDeviceMessage env evt repoA = ⟨none, none, []⟩ ∨
      forwardTwilioCallback env evt repoB = ⟨none, none, []⟩ := by
    cases evt with
    | none => exact Or.inl ((forwardOutboundDeviceMessage_skip_iff env none repoA).mpr (Or.inl rfl))
    | some e =>
      cases hme : e.Info.IsFromMe with
      | false =>
        exact Or.inl ((forwardOutboundDeviceMessage_skip_iff env _ repoA).mpr
          (Or.inr ⟨e, rfl, Or.inr (Or.inl hme)⟩))
      | true =>
        right
        unfold forwardTwilioCallback
        simp [hme]
  refine ⟨key, ?_⟩
  rintro ⟨ha, hb⟩
  rcases key with h | h
  · rw [h] at ha
    exact ha rfl
  · rw [h] at hb
    exact hb rfl

/-! ## The tenant identifier (C7) -/

/-- C7. For every self-originated event whose body is not a protocol message,
with a non-blank endpoint and a known device identifier,
`forwardOutboundDeviceMessage` builds a Schema A payload whose `companyNid`
is the configured override when that is positive and 6 otherwise. -/
theorem forwardOutboundDeviceMessage_companyNid (env : Env) (e : Event) (m : Message)
    (repo : Option ChatStorageRepo) (hm : e.Message = some m) (hme : e.Info.IsFromMe = true)
    (hp : m.ProtocolMessage = none) (he : TrimSpace env.WhatsappAPIEndpoint ≠ [])
    (hd : deviceID env ≠ []) :
    ∃ p, (forwardOutboundDeviceMessage env (some e) repo).payload = some p ∧
      (0 < env.CompanyNID → p.CompanyNID = env.CompanyNID) ∧
      (env.CompanyNID ≤ 0 → p.CompanyNID = 6) := by
  refine ⟨_, ((forwardOutboundDeviceMessage_pass env e m repo hm hme hp he).2 hd).1, ?_, ?_⟩
  · intro h
    unfold buildOutboundPayload
    simp [h]
  · intro h
    unfold buildOutboundPayload
    simp [not_lt.mpr h]

/-- C7, witness: the sample self-originated event, with no override set. -/
theorem forwardOutboundDeviceMessage_companyNid_witness :
    (sampleEvent "1555".toList true).Message = some emptyMessage ∧
    (sampleEvent "1555".toList true).Info.IsFromMe = true ∧
    emptyMessage.ProtocolMessage = none ∧
    TrimSpace (sampleEnv 200 []).WhatsappAPIEndpoint ≠ [] ∧
    deviceID (sampleEnv 200 []) ≠ [] ∧
    ∃ p, (forwardOutboundDeviceMessage (sampleEnv 200 []) (some (sampleEvent "1555".toList true))
        none).payload = some p ∧
      (0 < (sampleEnv 200 []).CompanyNID → p.CompanyNID = (sampleEnv 200 []).CompanyNID) ∧
      ((sampleEnv 200 []).CompanyNID ≤ 0 → p.CompanyNID = 6) :=
  ⟨rfl, rfl, rfl, by decide, by decide,
    forwardOutboundDeviceMessage_companyNid (sampleEnv 200 []) (sampleEvent "1555".toList true)
      emptyMessage none rfl rfl rfl (by decide) (by decide)⟩

/-! ## The classification of the HTTP outcome (C8, C9) -/

/-- The error `forwardOutboundDeviceMessage` returns once its request got a
response: decided by the status code alone. -/
theorem forwardOutboundDeviceMessage_outcome (env : Env) (evt : Option Event)
    (repo : Option ChatStorageRepo) (req : HttpRequest) (resp : HttpResponse)
    (hreq : req ∈ (forwardOutboundDeviceMessage env evt repo).requests)
    (hdo : env.httpDo req = .ok resp) :
    (forwardOutboundDeviceMessage env evt repo).err =
      if resp.StatusCode ≥ StatusMultipleChoices then
        some ("outbound callback returned ".toList ++ Itoa resp.StatusCode)
      else none := by
  unfold forwardOutboundDeviceMessage at hreq ⊢
  cases evt with
  | none => simp at hreq
  | some e =>
    cases hm : e.Message with
    | none => simp [hm] at hreq
    | some m =>
      simp only [hm] at hreq ⊢
      by_cases hme : e.Info.IsFromMe = false
      · simp [hme] at hreq
      by_cases hp : m.ProtocolMessage = none
      swap
      · simp [hme, hp] at hreq
      by_cases he : TrimSpace env.WhatsappAPIEndpoint = []
      · simp [hme, hp, he] at hreq
      by_cases hd : deviceID env = []
      · simp [hme, hp, he, hd] at hreq
      simp only [hme, hp, he, hd, if_false, ne_eq, not_true_eq_false] at hreq ⊢
      revert hreq
      repeat' split
      all_goals
        intro hreq
        simp at hreq
        try (subst hreq; simp_all)
        try (simp only [StatusMultipleChoices] at *; omega)

/-- The error `forwardTwilioCallback` returns once its request got a
response: decided by the status code and the start of the response body. -/
theorem forwardTwilioCallback_outcome (env : Env) (evt : Option Event)
    (repo : Option ChatStorageRepo) (req : HttpRequest) (resp : HttpResponse)
    (hreq : req ∈ (forwardTwilioCallback env evt repo).requests)
    (hdo : env.httpDo req = .ok resp) :
    (forwardTwilioCallback env evt repo).err =
      if resp.StatusCode ≥ StatusMultipleChoices then
        some ("twilio callback returned ".toList ++ Itoa resp.StatusCode ++ ": ".toList ++
          TrimSpace (bytesToString (readAllLimit resp.Body 2048)))
      else none := by
  unfold forwardTwilioCallback at hreq ⊢
  cases evt with
  | none => simp at hreq
  | some e =>
    simp only at hreq ⊢
    by_cases hc : TrimSpace env.WhatsappAPIEndpoint = [] ∨ e.Message = none ∨
        e.Info.IsFromMe = true ∨ e.Info.IsGroup = true
    · simp [hc] at hreq
    simp only [hc, if_false] at hreq ⊢
    revert hreq
    repeat' split
    all_goals
      intro hreq
      simp at hreq
      try (subst hreq; simp_all)
      try (simp only [StatusMultipleChoices] at *; omega)

/-- C8, as amended. For every response whose status code is below 300 (the
2xx range in particular), both forwarders return no error; a status from 300
on, the redirect range 300 to 399 included, is an error. -/
theorem dispatch_success_below_300 (env : Env) (evt : Option Event)
    (repo : Option ChatStorageRepo) (req : HttpRequest) (resp : HttpResponse)
    (hdo : env.httpDo req = .ok resp) :
    (req ∈ (forwardOutboundDeviceMessage env evt repo).requests →
      (resp.StatusCode < 300 → (forwardOutboundDeviceMessage env evt repo).err = none) ∧
      (300 ≤ resp.StatusCode → (forwardOutboundDeviceMessage env evt repo).err ≠ none)) ∧
    (req ∈ (forwardTwilioCallback env evt repo).requests →
      (resp.StatusCode < 300 → (forwardTwilioCallback env evt repo).err = none) ∧
      (300 ≤ resp.StatusCode → (forwardTwilioCallback env evt repo).err ≠ none)) := by
  constructor
  · intro hreq
    rw [forwardOutboundDeviceMessage_outcome env evt repo req resp hreq hdo]
    constructor
    · intro h
      simp [StatusMultipleChoices, not_le.mpr h]
    · intro h
      simp [StatusMultipleChoices, h]
  · intro hreq
    rw [forwardTwilioCallback_outcome env evt repo req resp hreq hdo]
    constructor
    · intro h
      simp [StatusMultipleChoices, not_le.mpr h]
    · intro h
      simp [StatusMultipleChoices, h]

/-- C8, witness: the sample self-originated event against an endpoint that
answers 204; the request is issued and no error is returned. -/
theorem dispatch_success_below_300_witness :
    (forwardOutboundDeviceMessage (sampleEnv 204 []) (some (sampleEvent "1555".toList true))
      none).requests.length = 1 ∧
    (forwardOutboundDeviceMessage (sampleEnv 204 []) (some (sampleEvent "1555".toList true))
      none).err = none :=
  ⟨by decide,
    ((dispatch_success_below_300 (sampleEnv 204 []) (some (sampleEvent "1555".toList true)) none
      ⟨"POST".toList, "http://api.test/api/callback/qr/message/send".toList,
        "application/json".toList, [], 30⟩ ⟨204, []⟩ rfl).1 (by decide)).1 (by decide)⟩

/-- C8, counterexample: the status 304 lies between 200 and 399, and both
forwarders return an error for it. -/
theorem dispatch_status_304_is_error :
    (200 : Int) ≤ 304 ∧ (304 : Int) ≤ 399 ∧
    (forwardOutboundDeviceMessage (sampleEnv 304 []) (some (sampleEvent "1555".toList true))
      none).requests.length = 1 ∧
    (forwardOutboundDeviceMessage (sampleEnv 304 []) (some (sampleEvent "1555".toList true))
      none).err = some "outbound callback returned 304".toList ∧
    (forwardTwilioCallback (sampleEnv 304 []) (some (sampleEvent "1555".toList false))
      none).requests.length = 1 ∧
    (forwardTwilioCallback (sampleEnv 304 []) (some (sampleEvent "1555".toList false))
      none).err = some "twilio callback returned 304: ".toList := by
  decide

/-- C9, as amended. For every response with a status code of 400 or more and
every response body, the error of `forwardOutboundDeviceMessage` is "outbound
callback returned " and the status code, whatever the body; the error of
`forwardTwilioCallback` is "twilio callback returned ", the status code, ": "
and an excerpt, which is the first 2048 bytes of the body with surrounding
white space trimmed. The excerpt is empty exactly when those bytes hold
nothing but white space. -/
theorem dispatch_error_from_400 (env : Env) (evt : Option Event)
    (repo : Option ChatStorageRepo) (req : HttpRequest) (resp : HttpResponse)
    (hdo : env.httpDo req = .ok resp) (hs : 400 ≤ resp.StatusCode) :
    (req ∈ (forwardOutboundDeviceMessage env evt repo).requests →
      (forwardOutboundDeviceMessage env evt repo).err =
        some ("outbound callback returned ".toList ++ Itoa resp.StatusCode)) ∧
    (req ∈ (forwardTwilioCallback env evt repo).requests →
      (forwardTwilioCallback env evt repo).err =
        some ("twilio callback returned ".toList ++ Itoa resp.StatusCode ++ ": ".toList ++
          TrimSpace (bytesToString (resp.Body.take 2048)))) ∧
    (TrimSpace (bytesToString (resp.Body.take 2048)) = [] ↔
      ∀ c ∈ bytesToString (resp.Body.take 2048), isSpace c = true) := by
  have h300 : resp.StatusCode ≥ StatusMultipleChoices := by
    unfold StatusMultipleChoices
    omega
  refine ⟨?_, ?_, TrimSpace_eq_nil_iff _⟩
  · intro hreq
    rw [forwardOutboundDeviceMessage_outcome env evt repo req resp hreq hdo, if_pos h300]
  · intro hreq
    rw [forwardTwilioCallback_outcome env evt repo req resp hreq hdo, if_pos h300]
    rfl

/-- C9, witness: the sample event against an endpoint that answers 500 with
the body "no" (bytes 110, 111). -/
theorem dispatch_error_from_400_witness :
    (400 : Int) ≤ 500 ∧
    (forwardTwilioCallback (sampleEnv 500 [110, 111]) (some (sampleEvent "1555".toList false))
      none).err =
        some ("twilio callback returned ".toList ++ Itoa 500 ++ ": ".toList ++
          TrimSpace (bytesToString (([110, 111] : List Nat).take 2048))) :=
  ⟨by decide,
    (dispatch_error_from_400 (sampleEnv 500 [110, 111]) (some (sampleEvent "1555".toList false))
      none
      ⟨"POST".toList, "http://api.test/api/callback/twilio/".toList,
        "application/json".toList, [], 10⟩ ⟨500, [110, 111]⟩ rfl (by decide)).2.1 (by decide)⟩

/-- C9, counterexample: the endpoint answers 500 with the one-byte body " "
(byte 32). The server returned a body, and the excerpt in the Schema B error
is empty. -/
theorem dispatch_blank_body_excerpt :
    ([32] : List Nat) ≠ [] ∧
    TrimSpace (bytesToString (readAllLimit [32] 2048)) = [] ∧
    (forwardTwilioCallback (sampleEnv 500 [32]) (some (sampleEvent "1555".toList false))
      none).requests.length = 1 ∧
    (forwardTwilioCallback (sampleEnv 500 [32]) (some (sampleEvent "1555".toList false))
      none).err = some "twilio callback returned 500: ".toList := by
  decide

/-! ## The media classifier (C10) -/

/-- C10. For every body, `countMedia` returns `(1, m)` with `m` the MIME type
of the first media variant present in the order image, video, document,
audio, sticker, and `(0, "")` when the body is `nil` or carries none of them;
the count is 0 or 1; and a body with an image classifies as image with the
image's MIME type, whatever else it carries (a document, say). -/
theorem countMedia_first_match (msg : Option Message) :
    countMedia msg =
      (match msg.bind firstMedia with
        | some m => (1, m.GetMimetype)
        | none => (0, [])) ∧
    (countMedia msg = (0, []) ↔
      msg = none ∨ ∃ m, msg = some m ∧ m.ImageMessage = none ∧ m.VideoMessage = none ∧
        m.DocumentMessage = none ∧ m.AudioMessage = none ∧ m.StickerMessage = none) ∧
    ((countMedia msg).1 = 0 ∨ (countMedia msg).1 = 1) ∧
    (∀ m img, msg = some m → m.ImageMessage = some img →
      countMedia msg = (1, img.GetMimetype)) := by
  cases msg with
  | none => simp [countMedia]
  | some m =>
    obtain ⟨i, v, d, a, s, l, p⟩ := m
    cases i <;> cases v <;> cases d <;> cases a <;> cases s <;>
      simp [countMedia, firstMedia, mediaVariants] <;>
      (try (rintro m img rfl; simp)) <;>
      (try (rintro rfl; rfl))

/-- C10, at a malformed body that carries both an image and a document: the
result is the image's MIME type. -/
theorem countMedia_image_and_document :
    countMedia (some { emptyMessage with
        ImageMessage := some ⟨some "image/png".toList⟩
        DocumentMessage := some ⟨some "application/pdf".toList⟩ }) =
      (1, "image/png".toList) :=
  (countMedia_first_match _).2.2.2 _ ⟨some "image/png".toList⟩ rfl rfl

/-! ## The sender number of Schema B (C11, C16) -/

/-- A sender number that is not empty stays non-empty when trimmed. -/
theorem TrimSpace_senderNumber_ne_nil (evt : Event) (hs : senderNumber evt ≠ []) :
    TrimSpace (senderNumber evt) ≠ [] := by
  unfold senderNumber at hs ⊢
  unfold sanitizeJIDToNumber at hs ⊢
  by_cases h1 : TrimPrefix (TrimSpace evt.Info.Sender.User) "+".toList = []
  · simp only [h1, if_true] at hs ⊢
    exact TrimSpace_TrimPrefix_TrimSpace_ne_nil _ hs
  · simp only [h1, if_false] at hs ⊢
    exact TrimSpace_TrimPrefix_TrimSpace_ne_nil _ hs

/-- C11. `buildTwilioPayload` returns no payload if and only if the
normalized sender number and the normalized chat number are both empty;
otherwise it returns a payload whose `WaId` is the normalized sender number
when that is not empty and the normalized chat number when it is. -/
theorem buildTwilioPayload_none_iff_WaID (env : Env) (evt : Event)
    (repo : Option ChatStorageRepo) :
    (buildTwilioPayload env evt repo = none ↔
      sanitizeJIDToNumber evt.Info.Sender = [] ∧ sanitizeJIDToNumber evt.Info.Chat = []) ∧
    (¬ (sanitizeJIDToNumber evt.Info.Sender = [] ∧ sanitizeJIDToNumber evt.Info.Chat = []) →
      ∃ p, buildTwilioPayload env evt repo = some p ∧
        (sanitizeJIDToNumber evt.Info.Sender ≠ [] →
          p.WaID = sanitizeJIDToNumber evt.Info.Sender) ∧
        (sanitizeJIDToNumber evt.Info.Sender = [] →
          p.WaID = sanitizeJIDToNumber evt.Info.Chat)) := by
  have hsn : senderNumber evt = [] ↔
      sanitizeJIDToNumber evt.Info.Sender = [] ∧ sanitizeJIDToNumber evt.Info.Chat = [] := by
    unfold senderNumber
    by_cases h : sanitizeJIDToNumber evt.Info.Sender = []
    · simp [h]
    · simp [h]
  refine ⟨(buildTwilioPayload_eq_none_iff env evt repo).trans hsn, ?_⟩
  intro hne
  cases hb : buildTwilioPayload env evt repo with
  | none => exact absurd (hsn.mp ((buildTwilioPayload_eq_none_iff env evt repo).mp hb)) hne
  | some p =>
    have hw := (buildTwilioPayload_fixed_fields env evt repo p hb).1
    refine ⟨p, rfl, ?_, ?_⟩
    · intro h
      rw [hw]
      unfold senderNumber
      simp [h]
    · intro h
      rw [hw]
      unfold senderNumber
      simp [h]

/-- C11, at a sample input: the sender's user-part is blank, so the `WaId`
is the chat's number. -/
theorem buildTwilioPayload_chat_fallback :
    (buildTwilioPayload (sampleEnv 200 [])
      { sampleEvent "+1555".toList false with
        Info := { (sampleEvent "+1555".toList false).Info with
          Sender := ⟨" ".toList, "s.whatsapp.net".toList⟩ } } none).map TwilioMessage.WaID
      = some "1555".toList ∧
    buildTwilioPayload (sampleEnv 200 []) (sampleEvent " + ".toList false) none = none := by
  decide

/-- C16. For every event for which `buildTwilioPayload` returns a payload,
`WaId` is not empty and `From` begins with "whatsapp:+"; a non-empty number
from `sanitizeJIDToNumber` is never blank, so `formatWhatsAppAddress` of it
is never the empty string. -/
theorem buildTwilioPayload_WaID_From (env : Env) (evt : Event) (repo : Option ChatStorageRepo)
    (p : TwilioMessage) (h : buildTwilioPayload env evt repo = some p) :
    p.WaID ≠ [] ∧ "whatsapp:+".toList <+: p.From ∧
    (∀ jid, sanitizeJIDToNumber jid ≠ [] →
      TrimSpace (sanitizeJIDToNumber jid) ≠ [] ∧
      formatWhatsAppAddress (sanitizeJIDToNumber jid) ≠ []) := by
  obtain ⟨hw, hfrom, _, _, _⟩ := buildTwilioPayload_fixed_fields env evt repo p h
  have hs : senderNumber evt ≠ [] := by
    intro e
    have := (buildTwilioPayload_eq_none_iff env evt repo).mpr e
    rw [this] at h
    cases h
  refine ⟨by rw [hw]; exact hs, ?_, ?_⟩
  · rw [hfrom, formatWhatsAppAddress_of_ne _ (TrimSpace_senderNumber_ne_nil evt hs)]
    exact List.prefix_append _ _
  · intro jid hj
    have ht : TrimSpace (sanitizeJIDToNumber jid) ≠ [] :=
      TrimSpace_TrimPrefix_TrimSpace_ne_nil _ hj
    refine ⟨ht, ?_⟩
    rw [formatWhatsAppAddress_of_ne _ ht]
    simp

/-- C16, witness: the payload of the sample event from "+1555". -/
theorem buildTwilioPayload_WaID_From_witness :
    ∃ p, buildTwilioPayload (sampleEnv 200 []) (sampleEvent "+1555".toList false) none = some p ∧
      p.WaID ≠ [] ∧ "whatsapp:+".toList <+: p.From :=
  match h : buildTwilioPayload (sampleEnv 200 []) (sampleEvent "+1555".toList false) none with
  | some p =>
    ⟨p, rfl, (buildTwilioPayload_WaID_From (sampleEnv 200 []) _ none p h).1,
      (buildTwilioPayload_WaID_From (sampleEnv 200 []) _ none p h).2.1⟩
  | none => absurd h (by decide)

/-! ## The group name (C12) and the Schema A name and text (C13) -/

/-- C12. `resolveGroupName` returns the stored chat name when the lookup
succeeds with a record whose name is not empty. In every other case (no
collaborator, a lookup error, no record, an empty name) it returns the chat
identifier's user-part when that is not empty and the identifier's string
form otherwise; so a lookup that fails gives the result of having no
collaborator. It is a total function: no case fails. -/
theorem resolveGroupName_cases (env : Env) (evt : Event) (repo : Option ChatStorageRepo) :
    (∀ r chat, repo = some r →
      r.GetChat (env.jidString evt.Info.Chat) = (some chat, none) → chat.Name ≠ [] →
      resolveGroupName env evt repo = chat.Name) ∧
    ((repo = none ∨ ∃ r, repo = some r ∧
        ((r.GetChat (env.jidString evt.Info.Chat)).2 ≠ none ∨
          (r.GetChat (env.jidString evt.Info.Chat)).1 = none ∨
          ∃ chat, (r.GetChat (env.jidString evt.Info.Chat)).1 = some chat ∧ chat.Name = [])) →
      resolveGroupName env evt repo =
        if evt.Info.Chat.User ≠ [] then evt.Info.Chat.User else env.jidString evt.Info.Chat) ∧
    (∀ r, repo = some r → (r.GetChat (env.jidString evt.Info.Chat)).2 ≠ none →
      resolveGroupName env evt repo = resolveGroupName env evt none) := by
  have hfall : ∀ r, repo = some r →
      ((r.GetChat (env.jidString evt.Info.Chat)).2 ≠ none ∨
        (r.GetChat (env.jidString evt.Info.Chat)).1 = none ∨
        ∃ chat, (r.GetChat (env.jidString evt.Info.Chat)).1 = some chat ∧ chat.Name = []) →
      resolveGroupName env evt repo =
        if evt.Info.Chat.User ≠ [] then evt.Info.Chat.User else env.jidString evt.Info.Chat := by
    intro r hr h
    subst hr
    unfold resolveGroupName
    rcases hg : r.GetChat (env.jidString evt.Info.Chat) with ⟨c, e⟩
    rw [hg] at h
    cases c with
    | none => cases e <;> simp [hg]
    | some chat =>
      cases e with
      | some m => simp [hg]
      | none =>
        have hn : chat.Name = [] := by
          rcases h with h | h | ⟨c2, h1, h2⟩
          · exact absurd rfl h
          · cases h
          · cases h1
            exact h2
        simp [hg, hn]
  have hnone : resolveGroupName env evt none =
      if evt.Info.Chat.User ≠ [] then evt.Info.Chat.User else env.jidString evt.Info.Chat := by
    unfold resolveGroupName
    simp
  refine ⟨?_, ?_, ?_⟩
  · intro r chat hr hg hn
    subst hr
    unfold resolveGroupName
    simp [hg, hn]
  · rintro (h | ⟨r, hr, h⟩)
    · rw [h, hnone]
    · exact hfall r hr h
  · intro r hr h
    rw [hfall r hr (Or.inl h), hnone]

/-- C12, at sample inputs: a stored name is returned; when the lookup fails
the result is the chat's user-part, although a record came back with it. -/
theorem resolveGroupName_samples :
    resolveGroupName (sampleEnv 200 []) (sampleGroupEvent "Ann".toList true) (some sampleRepo)
      = "Team".toList ∧
    resolveGroupName (sampleEnv 200 []) (sampleGroupEvent "Ann".toList true) (some failingRepo)
      = "12036".toList ∧
    resolveGroupName (sampleEnv 200 []) (sampleGroupEvent "Ann".toList true) none
      = "12036".toList :=
  ⟨(resolveGroupName_cases (sampleEnv 200 []) _ (some sampleRepo)).1 sampleRepo ⟨"Team".toList⟩
      rfl rfl (by decide),
    by decide, by decide⟩

/-- The payload `forwardOutboundDeviceMessage` reports is the one
`buildOutboundPayload` assembles for the device identifier. -/
theorem forwardOutboundDeviceMessage_payload_eq (env : Env) (e : Event)
    (repo : Option ChatStorageRepo) (p : outboundDevicePayload)
    (h : (forwardOutboundDeviceMessage env (some e) repo).payload = some p) :
    p = buildOutboundPayload env e repo (deviceID env) := by
  have hns : forwardOutboundDeviceMessage env (some e) repo ≠ ⟨none, none, []⟩ := by
    intro hc
    rw [hc] at h
    cases h
  rw [Ne, forwardOutboundDeviceMessage_skip_iff] at hns
  cases hm : e.Message with
  | none => exact absurd (Or.inr ⟨e, rfl, Or.inl hm⟩) hns
  | some m =>
    have hme : e.Info.IsFromMe = true := by
      by_contra hc
      exact hns (Or.inr ⟨e, rfl, Or.inr (Or.inl (by simpa using hc))⟩)
    have hp : m.ProtocolMessage = none := by
      by_contra hc
      exact hns (Or.inr ⟨e, rfl, Or.inr (Or.inr (Or.inl ⟨m, hm, hc⟩))⟩)
    have he : TrimSpace env.WhatsappAPIEndpoint ≠ [] := by
      intro hc
      exact hns (Or.inr ⟨e, rfl, Or.inr (Or.inr (Or.inr hc))⟩)
    by_cases hd : deviceID env = []
    · rw [(forwardOutboundDeviceMessage_pass env e m repo hm hme hp he).1 hd] at h
      cases h
    · rw [((forwardOutboundDeviceMessage_pass env e m repo hm hme hp he).2 hd).1] at h
      exact (Option.some.inj h).symm

/-- The name and the text of the Schema A payload. -/
theorem buildOutboundPayload_name_text (env : Env) (evt : Event)
    (repo : Option ChatStorageRepo) (did : GoString) :
    (buildOutboundPayload env evt repo did).Name =
      (if evt.Info.IsGroup = true ∧ resolveGroupName env evt repo ≠ [] then
        resolveGroupName env evt repo
      else evt.Info.PushName) ∧
    (buildOutboundPayload env evt repo did).Text =
      (if evt.Info.IsGroup = true ∧ evt.Info.PushName ≠ [] then
        "*".toList ++ evt.Info.PushName ++ "*\n\n".toList ++ extractBody env evt
      else extractBody env evt) := by
  unfold buildOutboundPayload
  cases hg : evt.Info.IsGroup <;>
    by_cases hn : resolveGroupName env evt repo = [] <;>
    by_cases hp : evt.Info.PushName = [] <;>
    by_cases hc : env.CompanyNID > 0 <;>
    simp [hn, hp, hc]

/-- C13, as amended. In the Schema A payload `forwardOutboundDeviceMessage`
builds: for a group event the name is the resolved group name when that is
not empty (the sender's display name otherwise), and the text is the
extracted text body with "*name*\n\n" put in front when the sender's display
name is not empty, and the extracted text body alone when it is empty; for
an event that is not from a group the name is the sender's display name and
the text is exactly the extracted text body. -/
theorem forwardOutboundDeviceMessage_name_text (env : Env) (e : Event)
    (repo : Option ChatStorageRepo) (p : outboundDevicePayload)
    (h : (forwardOutboundDeviceMessage env (some e) repo).payload = some p) :
    (e.Info.IsGroup = true →
      (resolveGroupName env e repo ≠ [] → p.Name = resolveGroupName env e repo) ∧
      (resolveGroupName env e repo = [] → p.Name = e.Info.PushName) ∧
      (e.Info.PushName ≠ [] →
        p.Text = "*".toList ++ e.Info.PushName ++ "*\n\n".toList ++ extractBody env e) ∧
      (e.Info.PushName = [] → p.Text = extractBody env e)) ∧
    (e.Info.IsGroup = false → p.Name = e.Info.PushName ∧ p.Text = extractBody env e) := by
  rw [forwardOutboundDeviceMessage_payload_eq env e repo p h]
  obtain ⟨hn, ht⟩ := buildOutboundPayload_name_text env e repo (deviceID env)
  rw [hn, ht]
  constructor
  · intro hg
    refine ⟨?_, ?_, ?_, ?_⟩ <;> intro hx <;> simp [hg, hx]
  · intro hg
    simp [hg]

/-- C13, witness: the sample group event from "Ann" with the chat stored as
"Team". -/
theorem forwardOutboundDeviceMessage_name_text_witness :
    ∃ p, (forwardOutboundDeviceMessage (sampleEnv 200 [])
        (some (sampleGroupEvent "Ann".toList true)) (some sampleRepo)).payload = some p ∧
      p.Name = "Team".toList ∧ p.Text = "*Ann*\n\nhi".toList :=
  match h : (forwardOutboundDeviceMessage (sampleEnv 200 [])
      (some (sampleGroupEvent "Ann".toList true)) (some sampleRepo)).payload with
  | some p =>
    ⟨p, rfl,
      ((forwardOutboundDeviceMessage_name_text (sampleEnv 200 []) _ (some sampleRepo) p h).1
        rfl).1 (by decide),
      ((forwardOutboundDeviceMessage_name_text (sampleEnv 200 []) _ (some sampleRepo) p h).1
        rfl).2.2.1 (by decide)⟩
  | none => absurd h (by decide)

/-- C13, counterexample: a group event whose sender has no display name. The
text of the payload is the extracted body "hi" alone, not the body behind the
wrapper "**\n\n". -/
theorem forwardOutboundDeviceMessage_text_without_name :
    (sampleGroupEvent [] true).Info.IsGroup = true ∧
    extractBody (sampleEnv 200 []) (sampleGroupEvent [] true) = "hi".toList ∧
    (forwardOutboundDeviceMessage (sampleEnv 200 []) (some (sampleGroupEvent [] true))
      (some sampleRepo)).payload.map outboundDevicePayload.Text = some "hi".toList ∧
    "hi".toList ≠ "*".toList ++ (sampleGroupEvent [] true).Info.PushName ++ "*\n\n".toList ++
      extractBody (sampleEnv 200 []) (sampleGroupEvent [] true) := by
  decide

/-! ## Location and media fields of Schema B (C14, C17) -/

/-- The location and media fields of the payload `buildTwilioPayload`
returns. -/
theorem buildTwilioPayload_optional_fields (env : Env) (evt : Event)
    (repo : Option ChatStorageRepo) (p : TwilioMessage)
    (h : buildTwilioPayload env evt repo = some p) :
    (∀ loc, evt.Message.bind (fun m => m.LocationMessage) = some loc →
      p.Latitude = env.sprintfFloat loc.GetDegreesLatitude ∧
      p.Longitude = env.sprintfFloat loc.GetDegreesLongitude ∧
      p.Address = if loc.GetName ≠ [] then loc.GetName else loc.GetAddress) ∧
    (evt.Message.bind (fun m => m.LocationMessage) = none →
      p.Latitude = [] ∧ p.Longitude = [] ∧ p.Address = []) ∧
    p.NumMedia =
      (if (countMedia evt.Message).1 > 0 then Itoa (countMedia evt.Message).1
        else "0".toList) ∧
    p.MediaContentType =
      (if (countMedia evt.Message).1 > 0 then (countMedia evt.Message).2 else []) := by
  unfold buildTwilioPayload at h
  by_cases hs : senderNumber evt = []
  · simp [hs] at h
  · simp only [hs, if_false] at h
    injection h with h
    subst h
    refine ⟨?_, ?_, ?_, ?_⟩
    · intro loc hl
      simp only [hl]
      repeat' split
      all_goals simp_all
    · intro hl
      simp only [hl]
      repeat' split
      all_goals simp_all
    · repeat' split
      all_goals simp_all
    · repeat' split
      all_goals simp_all

/-- The two results of `countMedia`: `(0, "")` for a body without a media
variant, and a count of 1 for a body with one. -/
theorem countMedia_cases (msg : Option Message) :
    (countMedia msg = (0, []) ∧
      ¬ ∃ m, msg = some m ∧ (m.ImageMessage ≠ none ∨ m.VideoMessage ≠ none ∨
        m.DocumentMessage ≠ none ∨ m.AudioMessage ≠ none ∨ m.StickerMessage ≠ none)) ∨
    ((countMedia msg).1 = 1 ∧
      ∃ m, msg = some m ∧ (m.ImageMessage ≠ none ∨ m.VideoMessage ≠ none ∨
        m.DocumentMessage ≠ none ∨ m.AudioMessage ≠ none ∨ m.StickerMessage ≠ none)) := by
  cases msg with
  | none => simp [countMedia]
  | some m =>
    obtain ⟨i, v, d, a, s, l, p⟩ := m
    cases i <;> cases v <;> cases d <;> cases a <;> cases s <;> simp [countMedia]

/-- C14. In a payload `buildTwilioPayload` returns: when the body is a
location variant, `Address` is the location's name when that is not empty and
the location's address field otherwise, and `Latitude` and `Longitude` are the
`%f` forms of its degrees; when the body is not a location variant,
`Latitude`, `Longitude` and `Address` are all empty. -/
theorem buildTwilioPayload_location (env : Env) (evt : Event) (repo : Option ChatStorageRepo)
    (p : TwilioMessage) (h : buildTwilioPayload env evt repo = some p) :
    (∀ loc, evt.Message.bind (fun m => m.LocationMessage) = some loc →
      (loc.GetName ≠ [] → p.Address = loc.GetName) ∧
      (loc.GetName = [] → p.Address = loc.GetAddress) ∧
      p.Latitude = env.sprintfFloat loc.GetDegreesLatitude ∧
      p.Longitude = env.sprintfFloat loc.GetDegreesLongitude) ∧
    (evt.Message.bind (fun m => m.LocationMessage) = none →
      p.Latitude = [] ∧ p.Longitude = [] ∧ p.Address = []) := by
  obtain ⟨hl, hn, _, _⟩ := buildTwilioPayload_optional_fields env evt repo p h
  refine ⟨?_, hn⟩
  intro loc hloc
  obtain ⟨h1, h2, h3⟩ := hl loc hloc
  refine ⟨?_, ?_, h1, h2⟩
  · intro hx
    rw [h3, if_pos hx]
  · intro hx
    rw [h3]
    simp [hx]

/-- C14, witness: a location named "HQ" at "Main St", and a location without
a name at "Main St". -/
theorem buildTwilioPayload_location_witness :
    (∃ p, buildTwilioPayload (sampleEnv 200 [])
        { sampleEvent "1555".toList false with
          Message := some (locationMessage "HQ".toList "Main St".toList) } none = some p ∧
      p.Address = "HQ".toList) ∧
    (buildTwilioPayload (sampleEnv 200 [])
        { sampleEvent "1555".toList false with
          Message := some (locationMessage [] "Main St".toList) } none).map
      TwilioMessage.Address = some "Main St".toList :=
  ⟨match h : buildTwilioPayload (sampleEnv 200 [])
        { sampleEvent "1555".toList false with
          Message := some (locationMessage "HQ".toList "Main St".toList) } none with
    | some p =>
      ⟨p, rfl, ((buildTwilioPayload_location (sampleEnv 200 []) _ none p h).1 _ rfl).1
        (by decide)⟩
    | none => absurd h (by decide),
    by decide⟩

/-- C17. In a payload `buildTwilioPayload` returns, `NumMedia` is "0" or "1";
it is "1" exactly when the body carries an image, video, document, audio or
sticker variant; `MediaContentType` is not empty only when `NumMedia` is "1",
and then it is the MIME type `countMedia` reports. -/
theorem buildTwilioPayload_media (env : Env) (evt : Event) (repo : Option ChatStorageRepo)
    (p : TwilioMessage) (h : buildTwilioPayload env evt repo = some p) :
    (p.NumMedia = "0".toList ∨ p.NumMedia = "1".toList) ∧
    (p.NumMedia = "1".toList ↔
      ∃ m, evt.Message = some m ∧ (m.ImageMessage ≠ none ∨ m.VideoMessage ≠ none ∨
        m.DocumentMessage ≠ none ∨ m.AudioMessage ≠ none ∨ m.StickerMessage ≠ none)) ∧
    (p.MediaContentType ≠ [] → p.NumMedia = "1".toList) ∧
    (p.NumMedia = "1".toList → p.MediaContentType = (countMedia evt.Message).2) := by
  obtain ⟨_, _, hnum, hmime⟩ := buildTwilioPayload_optional_fields env evt repo p h
  rcases countMedia_cases evt.Message with ⟨hc, hno⟩ | ⟨hc, hyes⟩
  · have h0 : p.NumMedia = "0".toList := by rw [hnum, hc]; rfl
    have hm : p.MediaContentType = [] := by rw [hmime, hc]; rfl
    refine ⟨Or.inl h0, ?_, ?_, ?_⟩
    · rw [h0]
      constructor
      · intro hx
        exact absurd hx (by decide)
      · intro hx
        exact absurd hx hno
    · intro hx
      exact absurd hm hx
    · intro hx
      rw [h0] at hx
      exact absurd hx (by decide)
  · have h1 : p.NumMedia = "1".toList := by rw [hnum, hc]; rfl
    have hm : p.MediaContentType = (countMedia evt.Message).2 := by rw [hmime, hc]; rfl
    exact ⟨Or.inr h1, ⟨fun _ => hyes, fun _ => h1⟩, fun _ => h1, fun _ => hm⟩

/-- C17, witness: the sample event with a PNG image as its body. -/
theorem buildTwilioPayload_media_witness :
    ∃ p, buildTwilioPayload (sampleEnv 200 [])
        { sampleEvent "1555".toList false with
          Message := some { emptyMessage with
            ImageMessage := some ⟨some "image/png".toList⟩ } } none = some p ∧
      p.NumMedia = "1".toList ∧ p.MediaContentType = "image/png".toList :=
  match h : buildTwilioPayload (sampleEnv 200 [])
        { sampleEvent "1555".toList false with
          Message := some { emptyMessage with
            ImageMessage := some ⟨some "image/png".toList⟩ } } none with
  | some p =>
    ⟨p, rfl,
      (buildTwilioPayload_media (sampleEnv 200 []) _ none p h).2.1.mpr
        ⟨_, rfl, Or.inl (by decide)⟩,
      (buildTwilioPayload_media (sampleEnv 200 []) _ none p h).2.2.2
        ((buildTwilioPayload_media (sampleEnv 200 []) _ none p h).2.1.mpr
          ⟨_, rfl, Or.inl (by decide)⟩)⟩
  | none => absurd h (by decide)

/-! ## More facts about trimming -/

theorem TrimRightFunc_append_of_pos (s t : GoString) (f : Char → Bool)
    (h : ∀ a ∈ t, f a = true) : TrimRightFunc (s ++ t) f = TrimRightFunc s f := by
  unfold TrimRightFunc
  rw [List.reverse_append, List.dropWhile_append_of_pos]
  intro a ha
  exact h a (List.mem_reverse.mp ha)

theorem TrimRightFunc_eq_self (s : GoString) (f : Char → Bool)
    (h : ∀ hl : s ≠ [], f (s.getLast hl) = false) : TrimRightFunc s f = s := by
  have : List.rdropWhile f s = s := by
    rw [List.rdropWhile_eq_self_iff]
    intro hl
    simp [h hl]
  exact this

theorem TrimRightFunc_getLast (s : GoString) (f : Char → Bool) (h : TrimRightFunc s f ≠ []) :
    f ((TrimRightFunc s f).getLast h) = false := by
  have := List.rdropWhile_last_not f s h
  simpa using this

theorem TrimLeftFunc_eq_self (s : GoString) (f : Char → Bool)
    (h : ∀ hl : s ≠ [], f (s.head hl) = false) : TrimLeftFunc s f = s := by
  unfold TrimLeftFunc
  cases s with
  | nil => rfl
  | cons c r =>
    have hc : f c = false := h (by simp)
    simp [hc]

/-- A string that neither starts nor ends with white space is its own
trimmed form. -/
theorem TrimSpace_eq_self (s : GoString)
    (hh : ∀ hl : s ≠ [], isSpace (s.head hl) = false)
    (hl : ∀ hl : s ≠ [], isSpace (s.getLast hl) = false) : TrimSpace s = s := by
  unfold TrimSpace
  rw [TrimLeftFunc_eq_self s isSpace hh, TrimRightFunc_eq_self s isSpace hl]

/-- White space in front of a string does not change its trimmed form. -/
theorem TrimSpace_append_left (ws s : GoString) (h : ∀ a ∈ ws, isSpace a = true) :
    TrimSpace (ws ++ s) = TrimSpace s := by
  unfold TrimSpace TrimLeftFunc
  rw [List.dropWhile_append_of_pos h]

/-- White space behind a string does not change its trimmed form. -/
theorem TrimSpace_append_right (s ws : GoString) (h : ∀ a ∈ ws, isSpace a = true) :
    TrimSpace (s ++ ws) = TrimSpace s := by
  unfold TrimSpace TrimLeftFunc
  rw [List.dropWhile_append]
  by_cases he : (List.dropWhile isSpace s).isEmpty = true
  · have h1 : List.dropWhile isSpace s = [] := by simpa using he
    have h2 : List.dropWhile isSpace ws = [] := List.dropWhile_eq_nil_iff.mpr h
    simp [h1, h2]
  · simp only [he]
    exact TrimRightFunc_append_of_pos _ ws isSpace h

/-- The last rune of what is left after trimming on the left is the last
rune of the string. -/
theorem getLast_TrimLeftFunc (s : GoString) (f : Char → Bool) (h : TrimLeftFunc s f ≠ [])
    (hs : s ≠ []) : (TrimLeftFunc s f).getLast h = s.getLast hs := by
  obtain ⟨u, hu⟩ : TrimLeftFunc s f <:+ s := List.dropWhile_suffix f
  have : s.getLast hs = (u ++ TrimLeftFunc s f).getLast (by rw [hu]; exact hs) := by
    congr 1
    exact hu.symm
  rw [this, List.getLast_append_of_ne_nil h]

/-- Slashes behind a string that does not end in white space stay behind its
trimmed form. -/
theorem TrimSpace_append_slashes (e sl : GoString)
    (he : ∀ hl : e ≠ [], isSpace (e.getLast hl) = false) (hsl : ∀ a ∈ sl, a = '/') :
    TrimSpace (e ++ sl) = TrimSpace e ++ sl := by
  have hslsp : ∀ hl : sl ≠ [], isSpace (sl.head hl) = false := by
    intro hl
    rw [hsl _ (List.head_mem hl)]
    decide
  have hsllast : ∀ hl : sl ≠ [], isSpace (sl.getLast hl) = false := by
    intro hl
    rw [hsl _ (List.getLast_mem hl)]
    decide
  by_cases hnil : e = []
  · subst hnil
    simp only [List.nil_append]
    rw [TrimSpace_eq_self sl hslsp hsllast]
    rfl
  have ht : TrimLeftFunc e isSpace ≠ [] := by
    intro hc
    have hall : ∀ x ∈ e, isSpace x = true := List.dropWhile_eq_nil_iff.mp hc
    have := hall _ (List.getLast_mem hnil)
    rw [he hnil] at this
    exact absurd this (by decide)
  have htlast : isSpace ((TrimLeftFunc e isSpace).getLast ht) = false := by
    rw [getLast_TrimLeftFunc e isSpace ht hnil]
    exact he hnil
  have h1 : TrimSpace e = TrimLeftFunc e isSpace := by
    unfold TrimSpace
    exact TrimRightFunc_eq_self _ isSpace (fun _ => htlast)
  have h2 : TrimLeftFunc (e ++ sl) isSpace = TrimLeftFunc e isSpace ++ sl := by
    unfold TrimLeftFunc at ht ⊢
    rw [List.dropWhile_append]
    have : (List.dropWhile isSpace e).isEmpty = false := by simpa using ht
    simp [this]
  rw [h1]
  unfold TrimSpace
  rw [h2]
  apply TrimRightFunc_eq_self
  intro hl
  by_cases hs : sl = []
  · subst hs
    simp only [List.append_nil]
    exact htlast
  · rw [List.getLast_append_of_ne_nil hs]
    exact hsllast hs

/-! ## The protocol address with and without `+` (C15) -/

/-- C15. `formatWhatsAppAddress("")` is `""`, and for every non-empty number
`n` that neither starts nor ends with white space and does not start with
`+`, `formatWhatsAppAddress(n)` and `formatWhatsAppAddress("+" ++ n)` are both
"whatsapp:+" followed by `n`. -/
theorem formatWhatsAppAddress_plus_insensitive (n : GoString) (hne : n ≠ [])
    (hfirst : isSpace (n.head hne) = false) (hlast : isSpace (n.getLast hne) = false)
    (hplus : n.head hne ≠ '+') :
    formatWhatsAppAddress [] = [] ∧
    formatWhatsAppAddress n = "whatsapp:+".toList ++ n ∧
    formatWhatsAppAddress ("+".toList ++ n) = "whatsapp:+".toList ++ n := by
  have ht : TrimSpace n = n := TrimSpace_eq_self n (fun _ => hfirst) (fun _ => hlast)
  have hp : n.head? ≠ some '+' := by
    cases n with
    | nil => exact absurd rfl hne
    | cons c r => simpa using hplus
  have ht2 : TrimSpace ('+' :: n) = '+' :: n := by
    apply TrimSpace_eq_self
    · intro _
      rfl
    · intro _
      rw [List.getLast_cons hne]
      exact hlast
  refine ⟨by decide, ?_, ?_⟩
  · rw [formatWhatsAppAddress_of_ne n (by rw [ht]; exact hne), ht, TrimPrefix_plus_of_ne n hp]
  · show formatWhatsAppAddress ('+' :: n) = _
    rw [formatWhatsAppAddress_of_ne _ (by rw [ht2]; simp), ht2, TrimPrefix_plus_cons]

/-- C15, witness: the number "1555", so that "1555" and "+1555" both give
"whatsapp:+1555". -/
theorem formatWhatsAppAddress_plus_insensitive_witness :
    formatWhatsAppAddress [] = [] ∧
    formatWhatsAppAddress "1555".toList = "whatsapp:+".toList ++ "1555".toList ∧
    formatWhatsAppAddress ("+".toList ++ "1555".toList) = "whatsapp:+".toList ++ "1555".toList :=
  formatWhatsAppAddress_plus_insensitive "1555".toList (by decide) (by decide) (by decide)
    (by decide)

/-! ## The dispatch URL (C18) -/

/-- The URL of a request `forwardOutboundDeviceMessage` issues. -/
theorem forwardOutboundDeviceMessage_url (env : Env) (evt : Option Event)
    (repo : Option ChatStorageRepo) (req : HttpRequest)
    (hreq : req ∈ (forwardOutboundDeviceMessage env evt repo).requests) :
    req.URL = TrimRight (TrimSpace env.WhatsappAPIEndpoint) "/".toList ++
      "/api/callback/qr/message/send".toList := by
  unfold forwardOutboundDeviceMessage at hreq
  cases evt with
  | none => simp at hreq
  | some e =>
    cases hm : e.Message with
    | none => simp [hm] at hreq
    | some m =>
      simp only [hm] at hreq
      by_cases hme : e.Info.IsFromMe = false
      · simp [hme] at hreq
      by_cases hp : m.ProtocolMessage = none
      swap
      · simp [hme, hp] at hreq
      by_cases he : TrimSpace env.WhatsappAPIEndpoint = []
      · simp [hme, hp, he] at hreq
      by_cases hd : deviceID env = []
      · simp [hme, hp, he, hd] at hreq
      simp only [hme, hp, he, hd, if_false, ne_eq, not_true_eq_false] at hreq
      revert hreq
      repeat' split
      all_goals
        intro hreq
        simp at hreq
        try (subst hreq; rfl)

/-- The URL of a request `forwardTwilioCallback` issues. -/
theorem forwardTwilioCallback_url (env : Env) (evt : Option Event)
    (repo : Option ChatStorageRepo) (req : HttpRequest)
    (hreq : req ∈ (forwardTwilioCallback env evt repo).requests) :
    req.URL = TrimRight (TrimSpace env.WhatsappAPIEndpoint) "/".toList ++
      "/api/callback/twilio/".toList := by
  unfold forwardTwilioCallback at hreq
  cases evt with
  | none => simp at hreq
  | some e =>
    simp only at hreq
    by_cases hc : TrimSpace env.WhatsappAPIEndpoint = [] ∨ e.Message = none ∨
        e.Info.IsFromMe = true ∨ e.Info.IsGroup = true
    · simp [hc] at hreq
    simp only [hc, if_false] at hreq
    revert hreq
    repeat' split
    all_goals
      intro hreq
      simp at hreq
      try (subst hreq; rfl)

/-- Slashes behind an endpoint that does not end in white space, and white
space around the whole, do not change the base of the URL. -/
theorem TrimRight_TrimSpace_padded (e ws1 sl ws2 : GoString)
    (he : ∀ hl : e ≠ [], isSpace (e.getLast hl) = false)
    (h1 : ∀ a ∈ ws1, isSpace a = true) (hsl : ∀ a ∈ sl, a = '/')
    (h2 : ∀ a ∈ ws2, isSpace a = true) :
    TrimRight (TrimSpace (ws1 ++ (e ++ sl) ++ ws2)) "/".toList =
      TrimRight (TrimSpace e) "/".toList := by
  rw [TrimSpace_append_right _ ws2 h2, TrimSpace_append_left ws1 _ h1,
    TrimSpace_append_slashes e sl he hsl]
  unfold TrimRight
  apply TrimRightFunc_append_of_pos
  intro a ha
  rw [hsl a ha]
  decide

/-- C18, as amended. The URL of every request is
`TrimRight(TrimSpace(endpoint), "/")` followed by the fixed path of the
forwarder. For every endpoint that does not end in white space, putting any
number of `/` behind it and then any white space around it gives the same
URL base, and every request a forwarder issues with the endpoint so written
goes to the URL of the endpoint as configured. The part of the URL before the
fixed path never ends with `/`. -/
theorem dispatch_url (env : Env) (evt : Option Event) (repo : Option ChatStorageRepo) :
    (∀ req ∈ (forwardOutboundDeviceMessage env evt repo).requests,
      req.URL = TrimRight (TrimSpace env.WhatsappAPIEndpoint) "/".toList ++
        "/api/callback/qr/message/send".toList) ∧
    (∀ req ∈ (forwardTwilioCallback env evt repo).requests,
      req.URL = TrimRight (TrimSpace env.WhatsappAPIEndpoint) "/".toList ++
        "/api/callback/twilio/".toList) ∧
    (∀ e ws1 sl ws2 : GoString, (∀ hl : e ≠ [], isSpace (e.getLast hl) = false) →
      (∀ a ∈ ws1, isSpace a = true) → (∀ a ∈ sl, a = '/') → (∀ a ∈ ws2, isSpace a = true) →
      TrimRight (TrimSpace (ws1 ++ (e ++ sl) ++ ws2)) "/".toList =
        TrimRight (TrimSpace e) "/".toList) ∧
    (∀ (e : GoString) (hl : TrimRight (TrimSpace e) "/".toList ≠ []),
      (TrimRight (TrimSpace e) "/".toList).getLast hl ≠ '/') ∧
    (∀ ws1 sl ws2 : GoString,
      (∀ hl : env.WhatsappAPIEndpoint ≠ [], isSpace (env.WhatsappAPIEndpoint.getLast hl) = false) →
      (∀ a ∈ ws1, isSpace a = true) → (∀ a ∈ sl, a = '/') → (∀ a ∈ ws2, isSpace a = true) →
      (∀ req ∈ (forwardOutboundDeviceMessage
          { env with WhatsappAPIEndpoint := ws1 ++ (env.WhatsappAPIEndpoint ++ sl) ++ ws2 }
          evt repo).requests,
        req.URL = TrimRight (TrimSpace env.WhatsappAPIEndpoint) "/".toList ++
          "/api/callback/qr/message/send".toList) ∧
      (∀ req ∈ (forwardTwilioCallback
          { env with WhatsappAPIEndpoint := ws1 ++ (env.WhatsappAPIEndpoint ++ sl) ++ ws2 }
          evt repo).requests,
        req.URL = TrimRight (TrimSpace env.WhatsappAPIEndpoint) "/".toList ++
          "/api/callback/twilio/".toList)) := by
  refine ⟨fun req hreq => forwardOutboundDeviceMessage_url env evt repo req hreq,
    fun req hreq => forwardTwilioCallback_url env evt repo req hreq, ?_, ?_, ?_⟩
  · intro e ws1 sl ws2 he h1 hsl h2
    exact TrimRight_TrimSpace_padded e ws1 sl ws2 he h1 hsl h2
  · intro e hl hc
    unfold TrimRight at hl hc
    have := TrimRightFunc_getLast _ _ hl
    rw [hc] at this
    exact absurd this (by decide)
  · intro ws1 sl ws2 he h1 hsl h2
    have hpad := TrimRight_TrimSpace_padded env.WhatsappAPIEndpoint ws1 sl ws2 he h1 hsl h2
    constructor
    · intro req hreq
      rw [forwardOutboundDeviceMessage_url _ evt repo req hreq]
      exact congrArg (fun b => b ++ "/api/callback/qr/message/send".toList) hpad
    · intro req hreq
      rw [forwardTwilioCallback_url _ evt repo req hreq]
      exact congrArg (fun b => b ++ "/api/callback/twilio/".toList) hpad

/-- C18, witness: the endpoint "http://h" written as " http://h// ". Each
forwarder issues one request for its sample event, and the request goes to the
URL of the endpoint "http://h". -/
theorem dispatch_url_witness :
    (forwardOutboundDeviceMessage
      { sampleEnvAt "http://h".toList with
        WhatsappAPIEndpoint :=
          " ".toList ++ ((sampleEnvAt "http://h".toList).WhatsappAPIEndpoint ++ "//".toList) ++
            " ".toList }
      (some (sampleEvent "1555".toList true)) none).requests.length = 1 ∧
    (∀ req ∈ (forwardOutboundDeviceMessage
        { sampleEnvAt "http://h".toList with
          WhatsappAPIEndpoint :=
            " ".toList ++ ((sampleEnvAt "http://h".toList).WhatsappAPIEndpoint ++ "//".toList) ++
              " ".toList }
        (some (sampleEvent "1555".toList true)) none).requests,
      req.URL = "http://h/api/callback/qr/message/send".toList) ∧
    (forwardTwilioCallback
      { sampleEnvAt "http://h".toList with
        WhatsappAPIEndpoint :=
          " ".toList ++ ((sampleEnvAt "http://h".toList).WhatsappAPIEndpoint ++ "//".toList) ++
            " ".toList }
      (some (sampleEvent "1555".toList false)) none).requests.length = 1 ∧
    (∀ req ∈ (forwardTwilioCallback
        { sampleEnvAt "http://h".toList with
          WhatsappAPIEndpoint :=
            " ".toList ++ ((sampleEnvAt "http://h".toList).WhatsappAPIEndpoint ++ "//".toList) ++
              " ".toList }
        (some (sampleEvent "1555".toList false)) none).requests,
      req.URL = "http://h/api/callback/twilio/".toList) ∧
    (forwardTwilioCallback (sampleEnvAt "http://h".toList)
      (some (sampleEvent "1555".toList false)) none).requests.map HttpRequest.URL
      = ["http://h/api/callback/twilio/".toList] :=
  ⟨by decide,
    fun req hreq =>
      (((dispatch_url (sampleEnvAt "http://h".toList) (some (sampleEvent "1555".toList true))
        none).2.2.2.2 " ".toList "//".toList " ".toList (fun _ => rfl) (by decide) (by decide)
        (by decide)).1 req hreq).trans (by decide),
    by decide,
    fun req hreq =>
      (((dispatch_url (sampleEnvAt "http://h".toList) (some (sampleEvent "1555".toList false))
        none).2.2.2.2 " ".toList "//".toList " ".toList (fun _ => rfl) (by decide) (by decide)
        (by decide)).2 req hreq).trans (by decide),
    by decide⟩

/-- C18, counterexample: the endpoint "http://h/a " has a base path and ends in
a blank. As configured the blank is trimmed and the request goes to
"http://h/a/api/callback/twilio/". With one `/` put behind the endpoint the
blank is no longer at the end, it stays in the path (where the URL check
accepts it), and the request goes to "http://h/a /api/callback/twilio/". -/
theorem dispatch_url_trailing_blank :
    TrimRight (TrimSpace "http://h/a ".toList) "/".toList = "http://h/a".toList ∧
    TrimRight (TrimSpace ("http://h/a ".toList ++ "/".toList)) "/".toList
      = "http://h/a ".toList ∧
    sampleNewRequestErr "http://h/a /api/callback/twilio/".toList = none ∧
    (forwardTwilioCallback (sampleEnvAt "http://h/a ".toList)
      (some (sampleEvent "1555".toList false)) none).requests.map HttpRequest.URL
      = ["http://h/a/api/callback/twilio/".toList] ∧
    (forwardTwilioCallback (sampleEnvAt ("http://h/a ".toList ++ "/".toList))
      (some (sampleEvent "1555".toList false)) none).requests.map HttpRequest.URL
      = ["http://h/a /api/callback/twilio/".toList] ∧
    (forwardOutboundDeviceMessage (sampleEnvAt "http://h/a ".toList)
      (some (sampleEvent "1555".toList true)) none).requests.map HttpRequest.URL
      = ["http://h/a/api/callback/qr/message/send".toList] ∧
    (forwardOutboundDeviceMessage (sampleEnvAt ("http://h/a ".toList ++ "/".toList))
      (some (sampleEvent "1555".toList true)) none).requests.map HttpRequest.URL
      = ["http://h/a /api/callback/qr/message/send".toList] := by
  decide

/-! ## The company identifier in a context (C19) -/

/-- A context that binds no company identifier has no value under the key. -/
theorem Context.Value_eq_none_of_not_binds (ctx : Context) (key : CtxKey)
    (h : ctx.binds key = false) : ctx.Value key = none := by
  induction ctx with
  | background => rfl
  | withValue parent k v ih =>
    simp only [Context.binds, Bool.or_eq_false_iff, beq_eq_false_iff_ne, ne_eq] at h
    simp only [Context.Value, h.1, if_false]
    exact ih h.2

/-- C19. For every context and every string `v`,
`GetCompanyNidFromContext(SetCompanyNidInContext(ctx, v))` is `v`, so the
most recent set wins; `GetCompanyNidFromContext` is `""` for a context in
which no company identifier was set, and the user context `BasicAuth` sets
over such a context, with the `Authorization` value under its own key type,
is one of them. -/
theorem GetCompanyNidFromContext_Set (ctx : Context) (v : GoString) :
    GetCompanyNidFromContext (SetCompanyNidInContext ctx v) = v ∧
    (∀ w, GetCompanyNidFromContext (SetCompanyNidInContext (SetCompanyNidInContext ctx w) v)
      = v) ∧
    (ctx.binds companyNidKey = false → GetCompanyNidFromContext ctx = []) ∧
    (ctx.binds companyNidKey = false →
      ∀ c, BasicAuth ctx v = some c →
        c.binds companyNidKey = false ∧ GetCompanyNidFromContext c = []) := by
  have hset : ∀ (c : Context) (x : GoString),
      GetCompanyNidFromContext (SetCompanyNidInContext c x) = x := by
    intro c x
    simp [GetCompanyNidFromContext, SetCompanyNidInContext, Context.Value]
  have hget : ∀ c : Context, c.binds companyNidKey = false →
      GetCompanyNidFromContext c = [] := by
    intro c hc
    unfold GetCompanyNidFromContext
    rw [Context.Value_eq_none_of_not_binds c companyNidKey hc]
  refine ⟨hset ctx v, fun w => hset _ v, hget ctx, ?_⟩
  intro hb c hc
  unfold BasicAuth at hc
  by_cases hv : v = []
  · simp [hv] at hc
  · simp only [ne_eq, hv, not_false_eq_true, if_true, Option.some.injEq] at hc
    subst hc
    have hb2 : (Context.withValue ctx basicAuthKey (some (CtxValue.string v))).binds
        companyNidKey = false := by
      simp only [Context.binds, hb, Bool.or_false]
      decide
    exact ⟨hb2, hget _ hb2⟩

/-- C19, at sample inputs: "9" set over "7" reads as "9", and the context
`BasicAuth` sets for the header "Basic abc" holds no company identifier; nor
does a context that binds the string "COMPANY_NID" as a key of the type
`AuthorizationValue`. -/
theorem GetCompanyNidFromContext_samples :
    GetCompanyNidFromContext
      (SetCompanyNidInContext (SetCompanyNidInContext .background "7".toList) "9".toList)
      = "9".toList ∧
    (BasicAuth .background "Basic abc".toList).map GetCompanyNidFromContext = some [] ∧
    GetCompanyNidFromContext
      (.withValue .background ⟨.AuthorizationValue, "COMPANY_NID".toList⟩
        (some (.string "7".toList))) = [] :=
  ⟨(GetCompanyNidFromContext_Set .background "9".toList).2.1 "7".toList, by decide, by decide⟩

end Whatsapp
